import Mathlib

/-
  Verification development for the ActivityPredictor repository.

  The repository converts tri-axial accelerometer / gyroscope sample windows
  into the 561-feature UCI-HAR style feature vector:
    - src/components/Signal_Processor.ts   (class SignalProcessor)
    - src/unnamed/part_001                 (class FeatureExtractor)
    - src/app/(tabs)/index.tsx             (normalizeFeatures, feature_list,
                                            processSignalWindow)

  Embedding conventions:
    - JS numbers are modelled as exact reals.  Where the JS code can produce a
      non-finite value (NaN or +-Infinity: division by zero, sqrt of a
      negative, acos outside its domain), the embedding returns an
      Option-valued result, with `none` standing for a non-finite IEEE value.
      Division by a provably nonzero denominator is modelled by real division.
    - Stateful recursive filters are modelled by explicit state-passing
      recursion.
    - The external fft.js library is not part of the repository; its transform
      is modelled from the spec (see dftInterleaved below).
-/

set_option maxRecDepth 100000
set_option maxHeartbeats 4000000

noncomputable section

open Real

/-- JS division a / b: finite exactly when the denominator is nonzero
(0/0 is NaN, x/0 is +-Infinity; `none` stands for any non-finite value). -/
def jsDiv (a b : ℝ) : Option ℝ := if b = 0 then none else some (a / b)

/-- JS Math.sqrt: NaN on negative arguments. -/
def jsSqrt (x : ℝ) : Option ℝ := if 0 ≤ x then some (Real.sqrt x) else none

/-- JS Math.max(...data): none (-Infinity) for an empty list. -/
def jsMax : List ℝ → Option ℝ
  | [] => none
  | x :: xs => some (xs.foldl max x)

/-- JS Math.min(...data): none (+Infinity) for an empty list. -/
def jsMin : List ℝ → Option ℝ
  | [] => none
  | x :: xs => some (xs.foldl min x)

/-- One sensor sample, as in the SensorReading interface of
Signal_Processor.ts: three axis values and a timestamp in milliseconds. -/
structure SensorReading where
  x : ℝ
  y : ℝ
  z : ℝ
  timestamp : ℝ

/-- medianFilter (Signal_Processor.ts lines 38-53), with its default
windowSize = 3: output[i] is the median of the sorted window
data[max(0,i-1) .. min(len,i+2)-1]; Math.floor(windowSize/2) = 1. -/
def medianFilter (data : List ℝ) : List ℝ :=
  (List.range data.length).map fun i =>
    let lo := i - 1
    let hi := min data.length (i + 2)
    let w := List.insertionSort (· ≤ ·) ((data.drop lo).take (hi - lo))
    w.getD (w.length / 2) 0

/-- The direct-form-II-transposed recursion of butterworthFilter
(Signal_Processor.ts lines 72-85): carries the two previous inputs (x1, x2)
and outputs (y1, y2). -/
def bwGo (b0 b1 b2 a1 a2 : ℝ) : List ℝ → ℝ → ℝ → ℝ → ℝ → List ℝ
  | [], _, _, _, _ => []
  | x0 :: rest, x1, x2, y1, y2 =>
    let y0 := b0 * x0 + b1 * x1 + b2 * x2 - a1 * y1 - a2 * y2
    y0 :: bwGo b0 b1 b2 a1 a2 rest x0 x1 y0 y1

/-- butterworthFilter (Signal_Processor.ts lines 56-88).  The coefficients are
derived from the cutoff via the bilinear transform with samplingRate = 50;
the `order` parameter of the source is never used by its body and is omitted.
Filter state starts at zero. -/
def butterworthFilter (data : List ℝ) (cutoffFreq : ℝ) : List ℝ :=
  let wc := Real.tan (Real.pi * cutoffFreq / 50)
  let k1 := Real.sqrt 2 * wc
  let k2 := wc * wc
  let a := 1 + k1 + k2
  let b0 := k2 / a
  let b1 := 2 * b0
  let b2 := b0
  let a1 := 2 * (k2 - 1) / a
  let a2 := (1 - k1 + k2) / a
  bwGo b0 b1 b2 a1 a2 data 0 0 0 0

/-- calculateJerk (Signal_Processor.ts lines 115-122):
jerk[i] = (data[i+1] - data[i]) / ((t[i+1] - t[i]) / 1000), output length
data.length - 1.  This total version uses real division (faithful whenever
every consecutive timestamp delta is nonzero; the source has no guard). -/
def calculateJerk (data ts : List ℝ) : List ℝ :=
  (List.range (data.length - 1)).map fun i =>
    (data.getD (i + 1) 0 - data.getD i 0) / ((ts.getD (i + 1) 0 - ts.getD i 0) / 1000)

/-- calculateJerk with the non-finite values tracked: a zero timestamp delta
makes the JS division produce NaN or +-Infinity, modelled as none. -/
def jsCalculateJerk (data ts : List ℝ) : List (Option ℝ) :=
  (List.range (data.length - 1)).map fun i =>
    jsDiv (data.getD (i + 1) 0 - data.getD i 0) ((ts.getD (i + 1) 0 - ts.getD i 0) / 1000)

/-- Error kinds named by the spec (section 7).  None of them exists in the
source; they are used only to state spec-side behaviour for comparison. -/
inductive SPError where
  | insufficientData
  | degenerateTimestamp
  | zeroVector
  | degenerateRange
deriving DecidableEq, Repr

/-- Modelled from the spec (sections 4.3 and 7), not from the source: the
jerk computation the spec describes, which fails with DegenerateTimestamp as
soon as some consecutive timestamp delta is zero.  The source
(Signal_Processor.ts calculateJerk) has no such failure path; this definition
exists only to contrast the spec with the code. -/
def calculateJerkSpec (data ts : List ℝ) : Except SPError (List ℝ) :=
  if (List.range (data.length - 1)).any (fun i => decide (ts.getD (i + 1) 0 - ts.getD i 0 = 0)) then
    Except.error SPError.degenerateTimestamp
  else
    Except.ok (calculateJerk data ts)

/-- calculateMagnitude (Signal_Processor.ts lines 125-127):
maps over x with the index, reading y and z at the same index. -/
def calculateMagnitude (x y z : List ℝ) : List ℝ :=
  (List.range x.length).map fun i =>
    Real.sqrt ((x.getD i 0) ^ 2 + (y.getD i 0) ^ 2 + (z.getD i 0) ^ 2)

/-- fftSize of the fft method (Signal_Processor.ts line 131):
2 ^ ceil(log2 n), i.e. the next power of two at or above n (0 for n = 0). -/
def nextPow2 (n : ℕ) : ℕ := if n = 0 then 0 else 2 ^ Nat.clog 2 n

/-- Modelled from the spec (section 4.4): real part of bin k of the size-N
discrete Fourier transform of the zero-padded signal.  The fft.js library that
the source calls is an external dependency, not part of the repository. -/
def dftRe (p : List ℝ) (N k : ℕ) : ℝ :=
  ((List.range N).map fun j => p.getD j 0 * Real.cos (2 * Real.pi * j * k / N)).sum

/-- Modelled from the spec (section 4.4): imaginary part of bin k of the
size-N discrete Fourier transform of the zero-padded signal. -/
def dftIm (p : List ℝ) (N k : ℕ) : ℝ :=
  -((List.range N).map fun j => p.getD j 0 * Real.sin (2 * Real.pi * j * k / N)).sum

/-- Modelled from the spec (section 4.4): the fft method of
Signal_Processor.ts (lines 130-144) zero-pads the signal to the next power of
two and returns the complex spectrum as interleaved re/im pairs, so the
output has length 2 * fftSize.  Zero-padding is realised by getD _ 0. -/
def dftInterleaved (signal : List ℝ) : List ℝ :=
  let N := nextPow2 signal.length
  (List.range N).flatMap fun k => [dftRe signal N k, dftIm signal N k]

/-- The windowing loop of processSensorData (Signal_Processor.ts lines
151-159): starting at i = 0, while i < readings.length - windowSize (strict),
push readings.slice(i, i + windowSize) and advance i by windowSize / 2.  The
loop never inspects the elements, so it is stated for any element type.
`fuel` bounds the iteration count; processWindows supplies readings.length,
which is ample for every windowSize ≥ 2 (each iteration advances i ≥ 1). -/
def windowsGo {α : Type} (w len : ℕ) (readings : List α) : ℕ → ℕ → List (List α)
  | 0, _ => []
  | fuel + 1, i =>
    if i + w < len then ((readings.drop i).take w) :: windowsGo w len readings fuel (i + w / 2)
    else []

/-- The overlapping windows computed (and then never used) by
processSensorData, with the window size as a parameter (the class fixes
windowSize = 128, overlap 64). -/
def processWindows {α : Type} (w : ℕ) (readings : List α) : List (List α) :=
  windowsGo w readings.length readings readings.length 0

/-- Result record of processAxis (Signal_Processor.ts lines 91-112). -/
structure AxisProcessed where
  bodyComponent : List ℝ
  gravityComponent : List ℝ
  jerk : List ℝ
  frequencyDomain : List ℝ

/-- processAxis (Signal_Processor.ts lines 91-112): median filter, low-pass
at the given cutoff, gravity separation at 0.3 Hz, body = noise - gravity,
jerk of the body component, and the spectrum of the body component. -/
def processAxis (data ts : List ℝ) (cutoffFreq : ℝ) : AxisProcessed :=
  let medianFiltered := medianFilter data
  let noiseFiltered := butterworthFilter medianFiltered cutoffFreq
  let gravityComponent := butterworthFilter noiseFiltered (3 / 10)
  let bodyComponent := List.zipWith (fun v g => v - g) noiseFiltered gravityComponent
  { bodyComponent := bodyComponent
    gravityComponent := gravityComponent
    jerk := calculateJerk bodyComponent ts
    frequencyDomain := dftInterleaved bodyComponent }

/-- One three-axis signal group of the ProcessedSignals interface of
Signal_Processor.ts, with its magnitude series. -/
structure TriAxis where
  x : List ℝ
  y : List ℝ
  z : List ℝ
  magnitude : List ℝ

/-- The time-domain half of ProcessedSignals. -/
structure TimeSignals where
  body : TriAxis
  gravity : TriAxis
  bodyJerk : TriAxis

/-- The frequency-domain half of ProcessedSignals. -/
structure FreqSignals where
  body : TriAxis
  bodyJerk : TriAxis

/-- ProcessedSignals, the return type of processSensorData. -/
structure ProcessedOut where
  time : TimeSignals
  frequency : FreqSignals

/-- processSensorData (Signal_Processor.ts lines 147-232).  The windowing
result is bound and never used, exactly as in the source; the window size w
(the class constant windowSize = 128) enters only that dead binding.  Note
that frequency.bodyJerk reuses the body spectra and the body spectral
magnitude (lines 224-229 of the source). -/
def processSensorData (w : ℕ) (readings : List SensorReading) (cutoffFreq : ℝ) : ProcessedOut :=
  let _windows := processWindows w readings
  let timestamps := readings.map (·.timestamp)
  let xData := readings.map (·.x)
  let yData := readings.map (·.y)
  let zData := readings.map (·.z)
  let xP := processAxis xData timestamps cutoffFreq
  let yP := processAxis yData timestamps cutoffFreq
  let zP := processAxis zData timestamps cutoffFreq
  let bodyMag := calculateMagnitude xP.bodyComponent yP.bodyComponent zP.bodyComponent
  let gravityMag := calculateMagnitude xP.gravityComponent yP.gravityComponent zP.gravityComponent
  let bodyJerkMag := calculateMagnitude xP.jerk yP.jerk zP.jerk
  let bodyFreqMag := calculateMagnitude xP.frequencyDomain yP.frequencyDomain zP.frequencyDomain
  { time :=
      { body := ⟨xP.bodyComponent, yP.bodyComponent, zP.bodyComponent, bodyMag⟩
        gravity := ⟨xP.gravityComponent, yP.gravityComponent, zP.gravityComponent, gravityMag⟩
        bodyJerk := ⟨xP.jerk, yP.jerk, zP.jerk, bodyJerkMag⟩ }
    frequency :=
      { body := ⟨xP.frequencyDomain, yP.frequencyDomain, zP.frequencyDomain, bodyFreqMag⟩
        bodyJerk := ⟨xP.frequencyDomain, yP.frequencyDomain, zP.frequencyDomain, bodyFreqMag⟩ } }

/-- JS reduce((sum, val) => sum + Math.abs(val), 0), used for sma. -/
def absSum (l : List ℝ) : ℝ := (l.map fun v => |v|).sum

/-- The 10-bin equal-width histogram entropy of calculateTimeFeatures and
calculateFrequencyFeatures (part_001 lines 33-46 and 84-97).  The result is
always a finite JS number: for a constant series the bin index (val-min)/range
evaluates to NaN, the JS statement bins[NaN]++ leaves every bin count of the
array at 0, and the entropy sum over zero counts is -0; an empty series
likewise leaves every bin at 0. -/
def histEntropy (data : List ℝ) : ℝ :=
  match jsMax data, jsMin data with
  | some mx, some mn =>
    if mx - mn = 0 then 0
    else
      -(((List.range 10).map fun k =>
        let cnt := data.countP fun v => decide (min (⌊(v - mn) / (mx - mn) * 10⌋) 9 = (k : ℤ))
        let p : ℝ := (cnt : ℝ) / (data.length : ℝ)
        if p = 0 then 0 else p * Real.logb 2 p).sum)
  | _, _ => 0

/-- num of iteration m of calculateARCoefficients (part_001 lines 144-147):
sum over n = m+1 .. N-1 of f[n] * b[n-1]. -/
def burgNum (f b : List ℝ) (m N : ℕ) : ℝ :=
  ((List.range' (m + 1) (N - (m + 1))).map fun n => f.getD n 0 * b.getD (n - 1) 0).sum

/-- den of iteration m of calculateARCoefficients:
sum over n = m+1 .. N-1 of f[n]^2 + b[n-1]^2. -/
def burgDen (f b : List ℝ) (m N : ℕ) : ℝ :=
  ((List.range' (m + 1) (N - (m + 1))).map fun n => (f.getD n 0) ^ 2 + (b.getD (n - 1) 0) ^ 2).sum

/-- The in-place array update of iteration m (part_001 lines 152-156):
f[n] += k*b[n-1] and b[n-1] += k*(old f[n]) for n = m+1 .. N-1, both reading
the pre-update arrays (the source saves old f[n] in temp). -/
def burgUpdate (k : ℝ) (f b : List ℝ) (m : ℕ) : List ℝ × List ℝ :=
  (f.mapIdx fun n v => if m + 1 ≤ n then v + k * b.getD (n - 1) 0 else v,
   b.mapIdx fun j v => if m ≤ j ∧ j + 1 < f.length then v + k * f.getD (j + 1) 0 else v)

/-- The order-4 Burg recursion of calculateARCoefficients (part_001 lines
136-160), with non-finite coefficients tracked: when den = 0 the JS
coefficient k = -2*num/den is NaN (num is then also 0), and the array updates
poison every f[n], b[n-1] in range with NaN, so all remaining coefficients
are NaN as well - modelled by replicate none. -/
def burgLoop (N : ℕ) : ℕ → ℕ → List ℝ → List ℝ → List (Option ℝ)
  | 0, _, _, _ => []
  | rem + 1, m, f, b =>
    let den := burgDen f b m N
    if den = 0 then List.replicate (rem + 1) none
    else
      let k := -2 * burgNum f b m N / den
      let fb := burgUpdate k f b m
      some k :: burgLoop N rem (m + 1) fb.1 fb.2

/-- calculateARCoefficients (part_001 lines 136-160) at the default (and only
used) order 4: f and b both start as copies of the data. -/
def calculateARCoefficients (data : List ℝ) : List (Option ℝ) :=
  burgLoop data.length 4 0 data data

/-- calculateTimeFeatures (part_001 lines 8-55): the twelve time-domain
statistics, in the source's insertion order.  The iqr guard reflects that for
an empty series the JS quantile reads are undefined and q3 - q1 is NaN; for a
nonempty series both getD reads are in range. -/
def calculateTimeFeatures (data : List ℝ) : List (String × Option ℝ) :=
  let n : ℝ := data.length
  let mean := jsDiv data.sum n
  let std := mean.bind fun m => (jsDiv ((data.map fun b => (b - m) ^ 2).sum) n).bind jsSqrt
  let sorted := List.insertionSort (· ≤ ·) data
  let median := sorted.getD (data.length / 2) 0
  let ar := calculateARCoefficients data
  [("mean()", mean),
   ("std()", std),
   ("mad()", jsDiv ((data.map fun x => |x - median|).sum) n),
   ("max()", jsMax data),
   ("min()", jsMin data),
   ("energy()", jsDiv ((data.map fun b => b * b).sum) n),
   ("iqr()", if data.length = 0 then none else
      some (sorted.getD (3 * data.length / 4) 0 - sorted.getD (data.length / 4) 0)),
   ("entropy()", some (histEntropy data)),
   ("arCoeff()1", ar.getD 0 none),
   ("arCoeff()2", ar.getD 1 none),
   ("arCoeff()3", ar.getD 2 none),
   ("arCoeff()4", ar.getD 3 none)]

/-- The magnitude spectrum computed from interleaved re/im data, as in
part_001 lines 99-104 (and recomputed again at lines 318-332):
sqrt(fftData[2i]^2 + fftData[2i+1]^2) for i < fftData.length / 2. -/
def magnitudeSpectrum (fftData : List ℝ) : List ℝ :=
  (List.range (fftData.length / 2)).map fun i =>
    Real.sqrt ((fftData.getD (2 * i) 0) ^ 2 + (fftData.getD (2 * i + 1) 0) ^ 2)

/-- calculateFrequencyFeatures (part_001 lines 57-134): the same eight basic
statistics as calculateTimeFeatures (the source duplicates that code), then
meanFreq, maxInds, skewness and kurtosis over the magnitude spectrum.
maxInds of an empty spectrum is -1 (JS indexOf of -Infinity); a zero total
magnitude makes meanFreq NaN, and a zero magstd makes every standardised
term 0/0 = NaN. -/
def calculateFrequencyFeatures (fftData : List ℝ) : List (String × Option ℝ) :=
  let n : ℝ := fftData.length
  let mean := jsDiv fftData.sum n
  let std := mean.bind fun m => (jsDiv ((fftData.map fun b => (b - m) ^ 2).sum) n).bind jsSqrt
  let sorted := List.insertionSort (· ≤ ·) fftData
  let median := sorted.getD (fftData.length / 2) 0
  let mags := magnitudeSpectrum fftData
  let weightedSum := (mags.mapIdx fun i m => m * (i : ℝ)).sum
  let magmean := jsDiv mags.sum (mags.length : ℝ)
  let magstd := magmean.bind fun mm =>
    (jsDiv ((mags.map fun x => (x - mm) ^ 2).sum) (mags.length : ℝ)).bind jsSqrt
  [("mean()", mean),
   ("std()", std),
   ("mad()", jsDiv ((fftData.map fun x => |x - median|).sum) n),
   ("max()", jsMax fftData),
   ("min()", jsMin fftData),
   ("energy()", jsDiv ((fftData.map fun b => b * b).sum) n),
   ("iqr()", if fftData.length = 0 then none else
      some (sorted.getD (3 * fftData.length / 4) 0 - sorted.getD (fftData.length / 4) 0)),
   ("entropy()", some (histEntropy fftData)),
   ("meanFreq()", jsDiv weightedSum mags.sum),
   ("maxInds", match jsMax mags with
      | some mx => some ((mags.indexOf mx : ℕ) : ℝ)
      | none => some (-1)),
   ("skewness()", magmean.bind fun mm => magstd.bind fun ms =>
      if ms = 0 then none
      else jsDiv ((mags.map fun x => ((x - mm) / ms) ^ 3).sum) (mags.length : ℝ)),
   ("kurtosis()", (magmean.bind fun mm => magstd.bind fun ms =>
      if ms = 0 then none
      else jsDiv ((mags.map fun x => ((x - mm) / ms) ^ 4).sum) (mags.length : ℝ)).map
        fun v => v - 3)]

/-- calculateCorrelation (part_001 lines 163-175): Pearson correlation.  The
numerator iterates signal1 reading signal2 at the same index (zipWith for the
equal-length series of every call site); the JS result is non-finite exactly
when a mean divides by length 0 or the denominator sqrt is 0. -/
def calculateCorrelation (signal1 signal2 : List ℝ) : Option ℝ :=
  (jsDiv signal1.sum (signal1.length : ℝ)).bind fun mean1 =>
  (jsDiv signal2.sum (signal2.length : ℝ)).bind fun mean2 =>
  let num := (List.zipWith (fun a b => (a - mean1) * (b - mean2)) signal1 signal2).sum
  let den := Real.sqrt
    (((signal1.map fun x => (x - mean1) ^ 2).sum) * ((signal2.map fun x => (x - mean2) ^ 2).sum))
  jsDiv num den

/-- The fourteen fixed bin ranges of calculateBandsEnergy
(part_001 lines 185-200). -/
def bandRanges : List (ℕ × ℕ) :=
  [(0, 8), (8, 16), (16, 24), (24, 32), (32, 40), (40, 48), (48, 56), (56, 64),
   (0, 16), (16, 32), (32, 48), (48, 64), (0, 24), (24, 48)]

/-- calculateBandsEnergy (part_001 lines 177-213): bandSize =
floor(len / numBands); for each range, mean squared magnitude of the slice
[start*bandSize, end*bandSize), divided by the scaled width (NaN when the
width is zero); the key uses the unscaled range. -/
def calculateBandsEnergy (magnitudes : List ℝ) (numBands : ℕ) : List (String × Option ℝ) :=
  let bandSize := magnitudes.length / numBands
  bandRanges.map fun se =>
    let st := se.1 * bandSize
    let en := se.2 * bandSize
    ("bandsEnergy()-" ++ toString (se.1 + 1) ++ "," ++ toString se.2,
     jsDiv (((magnitudes.drop st).take (en - st)).map fun m => m ^ 2).sum ((en : ℝ) - (st : ℝ)))

/-- One three-axis group of the FeatureExtractor input (part_001 type
ProcessedSignals, a string-indexed map built in index.tsx lines 676-730). -/
structure Axes3 where
  x : List ℝ
  y : List ℝ
  z : List ℝ

/-- The extractor input object combinedProcessedSignals as assembled in
index.tsx lines 676-730: a fixed set of named signal groups. -/
structure ProcessedSignals where
  tBodyAcc : Axes3
  tGravityAcc : Axes3
  tBodyAccJerk : Axes3
  tBodyGyro : Axes3
  tBodyGyroJerk : Axes3
  tBodyAccMag : List ℝ
  tGravityAccMag : List ℝ
  tBodyAccJerkMag : List ℝ
  tBodyGyroMag : List ℝ
  tBodyGyroJerkMag : List ℝ
  fBodyAcc : Axes3
  fBodyAccJerk : Axes3
  fBodyGyro : Axes3
  fBodyAccMag : List ℝ
  fBodyBodyAccJerkMag : List ℝ
  fBodyBodyGyroMag : List ℝ
  fBodyBodyGyroJerkMag : List ℝ

/-- The per-axis time-feature entries of one signal group, with the
key pattern signalType-feature-axis (part_001 lines 241-244). -/
def prefixTimeAxis (name ax : String) (d : List ℝ) : List (String × Option ℝ) :=
  (calculateTimeFeatures d).map fun fv => (name ++ "-" ++ fv.1 ++ "-" ++ ax, fv.2)

/-- One iteration of the time-domain group loop of extractFeatures (part_001
lines 221-265): per-axis features, then sma (accumulated |.| sums over the
three axes, divided by the x length), then the three correlations. -/
def timeGroupFeatures (name : String) (g : Axes3) : List (String × Option ℝ) :=
  prefixTimeAxis name "x" g.x ++ prefixTimeAxis name "y" g.y ++ prefixTimeAxis name "z" g.z
  ++ [(name ++ "-sma()", jsDiv (absSum g.x + absSum g.y + absSum g.z) (g.x.length : ℝ))]
  ++ [(name ++ "-correlation()-x,y", calculateCorrelation g.x g.y),
      (name ++ "-correlation()-x,z", calculateCorrelation g.x g.z),
      (name ++ "-correlation()-y,z", calculateCorrelation g.y g.z)]

/-- One iteration of the time-domain magnitude group loop (part_001 lines
267-295): keys signalType-feature, then sma over the single mag series. -/
def magGroupFeatures (name : String) (d : List ℝ) : List (String × Option ℝ) :=
  ((calculateTimeFeatures d).map fun fv => (name ++ "-" ++ fv.1, fv.2))
  ++ [(name ++ "-sma()", jsDiv (absSum d) (d.length : ℝ))]

/-- One axis iteration of the frequency group loop (part_001 lines 300-338):
frequency features, then the sma key written with the abs sums accumulated so
far (divided by the x length), then the band energies of the recomputed
magnitude spectrum with numBands = 64. -/
def freqAxisBlock (name ax : String) (d : List ℝ) (smaAcc nRep : ℝ) : List (String × Option ℝ) :=
  ((calculateFrequencyFeatures d).map fun fv => (name ++ "-" ++ fv.1 ++ "-" ++ ax, fv.2))
  ++ [(name ++ "-sma()", jsDiv smaAcc nRep)]
  ++ ((calculateBandsEnergy (magnitudeSpectrum d) 64).map fun fv => (name ++ "-" ++ fv.1 ++ "-" ++ ax, fv.2))

/-- One iteration of the frequency group loop of extractFeatures (part_001
lines 298-340).  The source assigns the signalType-sma() object key once per
axis with the running accumulation; in this association-list embedding each
assignment appends a binding and jsGet reads the last one, which matches the
JS object value. -/
def freqGroupFeatures (name : String) (g : Axes3) : List (String × Option ℝ) :=
  let n : ℝ := g.x.length
  let s1 := absSum g.x
  let s2 := s1 + absSum g.y
  let s3 := s2 + absSum g.z
  freqAxisBlock name "x" g.x s1 n ++ freqAxisBlock name "y" g.y s2 n ++ freqAxisBlock name "z" g.z s3 n

/-- One iteration of the frequency magnitude group loop (part_001 lines
342-369): frequency features keyed signalType-feature, then sma. -/
def freqMagGroupFeatures (name : String) (d : List ℝ) : List (String × Option ℝ) :=
  ((calculateFrequencyFeatures d).map fun fv => (name ++ "-" ++ fv.1, fv.2))
  ++ [(name ++ "-sma()", jsDiv (absSum d) (d.length : ℝ))]

/-- extractFeatures (part_001 lines 215-372): the four group loops in source
order over their fixed group-name lists. -/
def extractFeatures (ps : ProcessedSignals) : List (String × Option ℝ) :=
  timeGroupFeatures "tBodyAcc" ps.tBodyAcc
  ++ timeGroupFeatures "tGravityAcc" ps.tGravityAcc
  ++ timeGroupFeatures "tBodyAccJerk" ps.tBodyAccJerk
  ++ timeGroupFeatures "tBodyGyro" ps.tBodyGyro
  ++ timeGroupFeatures "tBodyGyroJerk" ps.tBodyGyroJerk
  ++ magGroupFeatures "tBodyAccMag" ps.tBodyAccMag
  ++ magGroupFeatures "tGravityAccMag" ps.tGravityAccMag
  ++ magGroupFeatures "tBodyAccJerkMag" ps.tBodyAccJerkMag
  ++ magGroupFeatures "tBodyGyroMag" ps.tBodyGyroMag
  ++ magGroupFeatures "tBodyGyroJerkMag" ps.tBodyGyroJerkMag
  ++ freqGroupFeatures "fBodyAcc" ps.fBodyAcc
  ++ freqGroupFeatures "fBodyAccJerk" ps.fBodyAccJerk
  ++ freqGroupFeatures "fBodyGyro" ps.fBodyGyro
  ++ freqMagGroupFeatures "fBodyAccMag" ps.fBodyAccMag
  ++ freqMagGroupFeatures "fBodyBodyAccJerkMag" ps.fBodyBodyAccJerkMag
  ++ freqMagGroupFeatures "fBodyBodyGyroMag" ps.fBodyBodyGyroMag
  ++ freqMagGroupFeatures "fBodyBodyGyroJerkMag" ps.fBodyBodyGyroJerkMag

/-- calculateAngle (part_001 lines 374-386): acos(dot / (|v1| |v2|)).  When
either magnitude is zero the dot product is zero as well and the JS result is
acos(0/0) = acos(NaN) = NaN, modelled as none; otherwise Cauchy-Schwarz keeps
the argument inside the acos domain, so the result is finite. -/
def calculateAngle (vector1 vector2 : List ℝ) : Option ℝ :=
  let dotProduct := (List.zipWith (· * ·) vector1 vector2).sum
  let magnitude1 := Real.sqrt ((vector1.map fun v => v ^ 2).sum)
  let magnitude2 := Real.sqrt ((vector2.map fun v => v ^ 2).sum)
  if magnitude1 * magnitude2 = 0 then none
  else some (Real.arccos (dotProduct / (magnitude1 * magnitude2)))

/-- The gravity vector of extractAngleFeatures (part_001 lines 395-399): the
first sample of each tGravityAcc axis series, not a mean. -/
def gravityFirst (ps : ProcessedSignals) : List ℝ :=
  [ps.tGravityAcc.x.getD 0 0, ps.tGravityAcc.y.getD 0 0, ps.tGravityAcc.z.getD 0 0]

/-- The gravityMean vector (part_001 lines 400-413).  The z component divides
by the y length, exactly as in the source (line 412); pipeline series are
nonempty, so the real divisions agree with JS. -/
def gravityMeanVec (ps : ProcessedSignals) : List ℝ :=
  [ps.tGravityAcc.x.sum / (ps.tGravityAcc.x.length : ℝ),
   ps.tGravityAcc.y.sum / (ps.tGravityAcc.y.length : ℝ),
   ps.tGravityAcc.z.sum / (ps.tGravityAcc.y.length : ℝ)]

/-- The per-axis mean vector of a three-axis group, as computed for
tBodyAccMean, tBodyAccJerkMean, tBodyGyroMean and tBodyGyroJerkMean
(part_001 lines 415-441). -/
def axisMeans (g : Axes3) : List ℝ :=
  [g.x.sum / (g.x.length : ℝ), g.y.sum / (g.y.length : ℝ), g.z.sum / (g.z.length : ℝ)]

/-- extractAngleFeatures (part_001 lines 389-475): the seven angle features in
source order.  The first uses the gravity first-sample vector, the remaining
six use gravityMean. -/
def extractAngleFeatures (ps : ProcessedSignals) : List (String × Option ℝ) :=
  [("angle(tBodyAccMean,gravity)", calculateAngle (axisMeans ps.tBodyAcc) (gravityFirst ps)),
   ("angle(tBodyAccJerkMean,gravityMean)",
      calculateAngle (axisMeans ps.tBodyAccJerk) (gravityMeanVec ps)),
   ("angle(tBodyGyroMean,gravityMean)",
      calculateAngle (axisMeans ps.tBodyGyro) (gravityMeanVec ps)),
   ("angle(tBodyGyroJerkMean,gravityMean)",
      calculateAngle (axisMeans ps.tBodyGyroJerk) (gravityMeanVec ps)),
   ("angle(x,gravityMean)", calculateAngle [1, 0, 0] (gravityMeanVec ps)),
   ("angle(y,gravityMean)", calculateAngle [0, 1, 0] (gravityMeanVec ps)),
   ("angle(z,gravityMean)", calculateAngle [0, 0, 1] (gravityMeanVec ps))]

/-- Reading a key from the feature object: a JS object read returns the value
of the last assignment to that key, hence the lookup on the reversed
association list. -/
def jsGet (features : List (String × Option ℝ)) (key : String) : Option (Option ℝ) :=
  List.lookup key features.reverse

/-- combinedProcessedSignals (index.tsx lines 676-730): the extractor input
assembled from the two processSensorData results. -/
def combineProcessedSignals (acc gyro : ProcessedOut) : ProcessedSignals where
  tBodyAcc := ⟨acc.time.body.x, acc.time.body.y, acc.time.body.z⟩
  tGravityAcc := ⟨acc.time.gravity.x, acc.time.gravity.y, acc.time.gravity.z⟩
  tBodyAccJerk := ⟨acc.time.bodyJerk.x, acc.time.bodyJerk.y, acc.time.bodyJerk.z⟩
  tBodyGyro := ⟨gyro.time.body.x, gyro.time.body.y, gyro.time.body.z⟩
  tBodyGyroJerk := ⟨gyro.time.bodyJerk.x, gyro.time.bodyJerk.y, gyro.time.bodyJerk.z⟩
  tBodyAccMag := acc.time.body.magnitude
  tGravityAccMag := acc.time.gravity.magnitude
  tBodyAccJerkMag := acc.time.bodyJerk.magnitude
  tBodyGyroMag := gyro.time.body.magnitude
  tBodyGyroJerkMag := gyro.time.bodyJerk.magnitude
  fBodyAcc := ⟨acc.frequency.body.x, acc.frequency.body.y, acc.frequency.body.z⟩
  fBodyAccJerk := ⟨acc.frequency.bodyJerk.x, acc.frequency.bodyJerk.y, acc.frequency.bodyJerk.z⟩
  fBodyGyro := ⟨gyro.frequency.body.x, gyro.frequency.body.y, gyro.frequency.body.z⟩
  fBodyAccMag := acc.frequency.body.magnitude
  fBodyBodyAccJerkMag := acc.frequency.bodyJerk.magnitude
  fBodyBodyGyroMag := gyro.frequency.body.magnitude
  fBodyBodyGyroJerkMag := gyro.frequency.bodyJerk.magnitude

/-- processSignalWindow (index.tsx lines 669-741): processSensorData on both
windows (default cutoff 20, class windowSize 128), combine, extract, and
merge the statistical and angle features (disjoint key sets, so the object
spread is an append). -/
def processSignalWindow (accWindow gyroWindow : List SensorReading) : List (String × Option ℝ) :=
  let a := processSensorData 128 accWindow 20
  let g := processSensorData 128 gyroWindow 20
  let ps := combineProcessedSignals a g
  extractFeatures ps ++ extractAngleFeatures ps

/-- The keys of the combined feature object of one window. -/
def keysOf (ps : ProcessedSignals) : List String :=
  (extractFeatures ps ++ extractAngleFeatures ps).map Prod.fst

/-- An all-empty extractor input, used to evaluate the (input-independent)
key list on a closed term. -/
def psEmpty : ProcessedSignals :=
  ⟨⟨[], [], []⟩, ⟨[], [], []⟩, ⟨[], [], []⟩, ⟨[], [], []⟩, ⟨[], [], []⟩,
   [], [], [], [], [],
   ⟨[], [], []⟩, ⟨[], [], []⟩, ⟨[], [], []⟩,
   [], [], [], []⟩

/-- Math.min over a spread of values (index.tsx line 35); the source only
ever applies it to the nonempty value columns of a nonempty batch. -/
def listMinD : List ℝ → ℝ
  | [] => 0
  | x :: xs => xs.foldl min x

/-- Math.max over a spread of values (index.tsx line 36). -/
def listMaxD : List ℝ → ℝ
  | [] => 0
  | x :: xs => xs.foldl max x

/-- normalizeFeatures (index.tsx lines 28-54), with the key list (which the
source reads as Object.keys of the first row) passed explicitly: per key,
min and max over the batch; constant columns are set to 0, all others are
rescaled by v' = -1 + 2*(v - min)/(max - min); other keys are untouched. -/
def normalizeFeatures (featureKeys : List String) (featureRows : List (String → ℝ)) :
    List (String → ℝ) :=
  featureRows.map fun row k =>
    if k ∈ featureKeys then
      let values := featureRows.map fun r => r k
      let mn := listMinD values
      let mx := listMaxD values
      if mx = mn then 0 else -1 + 2 * (row k - mn) / (mx - mn)
    else row k

end

/-- The canonical 561-entry feature key list (index.tsx lines 76-638), in
its source order. -/
def feature_list : List String := [
  "tBodyAcc-mean()-x",
  "tBodyAcc-mean()-y",
  "tBodyAcc-mean()-z",
  "tBodyAcc-std()-x",
  "tBodyAcc-std()-y",
  "tBodyAcc-std()-z",
  "tBodyAcc-mad()-x",
  "tBodyAcc-mad()-y",
  "tBodyAcc-mad()-z",
  "tBodyAcc-max()-x",
  "tBodyAcc-max()-y",
  "tBodyAcc-max()-z",
  "tBodyAcc-min()-x",
  "tBodyAcc-min()-y",
  "tBodyAcc-min()-z",
  "tBodyAcc-sma()",
  "tBodyAcc-energy()-x",
  "tBodyAcc-energy()-y",
  "tBodyAcc-energy()-z",
  "tBodyAcc-iqr()-x",
  "tBodyAcc-iqr()-y",
  "tBodyAcc-iqr()-z",
  "tBodyAcc-entropy()-x",
  "tBodyAcc-entropy()-y",
  "tBodyAcc-entropy()-z",
  "tBodyAcc-arCoeff()1-x",
  "tBodyAcc-arCoeff()2-x",
  "tBodyAcc-arCoeff()3-x",
  "tBodyAcc-arCoeff()4-x",
  "tBodyAcc-arCoeff()1-y",
  "tBodyAcc-arCoeff()2-y",
  "tBodyAcc-arCoeff()3-y",
  "tBodyAcc-arCoeff()4-y",
  "tBodyAcc-arCoeff()1-z",
  "tBodyAcc-arCoeff()2-z",
  "tBodyAcc-arCoeff()3-z",
  "tBodyAcc-arCoeff()4-z",
  "tBodyAcc-correlation()-x,y",
  "tBodyAcc-correlation()-x,z",
  "tBodyAcc-correlation()-y,z",
  "tGravityAcc-mean()-x",
  "tGravityAcc-mean()-y",
  "tGravityAcc-mean()-z",
  "tGravityAcc-std()-x",
  "tGravityAcc-std()-y",
  "tGravityAcc-std()-z",
  "tGravityAcc-mad()-x",
  "tGravityAcc-mad()-y",
  "tGravityAcc-mad()-z",
  "tGravityAcc-max()-x",
  "tGravityAcc-max()-y",
  "tGravityAcc-max()-z",
  "tGravityAcc-min()-x",
  "tGravityAcc-min()-y",
  "tGravityAcc-min()-z",
  "tGravityAcc-sma()",
  "tGravityAcc-energy()-x",
  "tGravityAcc-energy()-y",
  "tGravityAcc-energy()-z",
  "tGravityAcc-iqr()-x",
  "tGravityAcc-iqr()-y",
  "tGravityAcc-iqr()-z",
  "tGravityAcc-entropy()-x",
  "tGravityAcc-entropy()-y",
  "tGravityAcc-entropy()-z",
  "tGravityAcc-arCoeff()1-x",
  "tGravityAcc-arCoeff()2-x",
  "tGravityAcc-arCoeff()3-x",
  "tGravityAcc-arCoeff()4-x",
  "tGravityAcc-arCoeff()1-y",
  "tGravityAcc-arCoeff()2-y",
  "tGravityAcc-arCoeff()3-y",
  "tGravityAcc-arCoeff()4-y",
  "tGravityAcc-arCoeff()1-z",
  "tGravityAcc-arCoeff()2-z",
  "tGravityAcc-arCoeff()3-z",
  "tGravityAcc-arCoeff()4-z",
  "tGravityAcc-correlation()-x,y",
  "tGravityAcc-correlation()-x,z",
  "tGravityAcc-correlation()-y,z",
  "tBodyAccJerk-mean()-x",
  "tBodyAccJerk-mean()-y",
  "tBodyAccJerk-mean()-z",
  "tBodyAccJerk-std()-x",
  "tBodyAccJerk-std()-y",
  "tBodyAccJerk-std()-z",
  "tBodyAccJerk-mad()-x",
  "tBodyAccJerk-mad()-y",
  "tBodyAccJerk-mad()-z",
  "tBodyAccJerk-max()-x",
  "tBodyAccJerk-max()-y",
  "tBodyAccJerk-max()-z",
  "tBodyAccJerk-min()-x",
  "tBodyAccJerk-min()-y",
  "tBodyAccJerk-min()-z",
  "tBodyAccJerk-sma()",
  "tBodyAccJerk-energy()-x",
  "tBodyAccJerk-energy()-y",
  "tBodyAccJerk-energy()-z",
  "tBodyAccJerk-iqr()-x",
  "tBodyAccJerk-iqr()-y",
  "tBodyAccJerk-iqr()-z",
  "tBodyAccJerk-entropy()-x",
  "tBodyAccJerk-entropy()-y",
  "tBodyAccJerk-entropy()-z",
  "tBodyAccJerk-arCoeff()1-x",
  "tBodyAccJerk-arCoeff()2-x",
  "tBodyAccJerk-arCoeff()3-x",
  "tBodyAccJerk-arCoeff()4-x",
  "tBodyAccJerk-arCoeff()1-y",
  "tBodyAccJerk-arCoeff()2-y",
  "tBodyAccJerk-arCoeff()3-y",
  "tBodyAccJerk-arCoeff()4-y",
  "tBodyAccJerk-arCoeff()1-z",
  "tBodyAccJerk-arCoeff()2-z",
  "tBodyAccJerk-arCoeff()3-z",
  "tBodyAccJerk-arCoeff()4-z",
  "tBodyAccJerk-correlation()-x,y",
  "tBodyAccJerk-correlation()-x,z",
  "tBodyAccJerk-correlation()-y,z",
  "tBodyGyro-mean()-x",
  "tBodyGyro-mean()-y",
  "tBodyGyro-mean()-z",
  "tBodyGyro-std()-x",
  "tBodyGyro-std()-y",
  "tBodyGyro-std()-z",
  "tBodyGyro-mad()-x",
  "tBodyGyro-mad()-y",
  "tBodyGyro-mad()-z",
  "tBodyGyro-max()-x",
  "tBodyGyro-max()-y",
  "tBodyGyro-max()-z",
  "tBodyGyro-min()-x",
  "tBodyGyro-min()-y",
  "tBodyGyro-min()-z",
  "tBodyGyro-sma()",
  "tBodyGyro-energy()-x",
  "tBodyGyro-energy()-y",
  "tBodyGyro-energy()-z",
  "tBodyGyro-iqr()-x",
  "tBodyGyro-iqr()-y",
  "tBodyGyro-iqr()-z",
  "tBodyGyro-entropy()-x",
  "tBodyGyro-entropy()-y",
  "tBodyGyro-entropy()-z",
  "tBodyGyro-arCoeff()1-x",
  "tBodyGyro-arCoeff()2-x",
  "tBodyGyro-arCoeff()3-x",
  "tBodyGyro-arCoeff()4-x",
  "tBodyGyro-arCoeff()1-y",
  "tBodyGyro-arCoeff()2-y",
  "tBodyGyro-arCoeff()3-y",
  "tBodyGyro-arCoeff()4-y",
  "tBodyGyro-arCoeff()1-z",
  "tBodyGyro-arCoeff()2-z",
  "tBodyGyro-arCoeff()3-z",
  "tBodyGyro-arCoeff()4-z",
  "tBodyGyro-correlation()-x,y",
  "tBodyGyro-correlation()-x,z",
  "tBodyGyro-correlation()-y,z",
  "tBodyGyroJerk-mean()-x",
  "tBodyGyroJerk-mean()-y",
  "tBodyGyroJerk-mean()-z",
  "tBodyGyroJerk-std()-x",
  "tBodyGyroJerk-std()-y",
  "tBodyGyroJerk-std()-z",
  "tBodyGyroJerk-mad()-x",
  "tBodyGyroJerk-mad()-y",
  "tBodyGyroJerk-mad()-z",
  "tBodyGyroJerk-max()-x",
  "tBodyGyroJerk-max()-y",
  "tBodyGyroJerk-max()-z",
  "tBodyGyroJerk-min()-x",
  "tBodyGyroJerk-min()-y",
  "tBodyGyroJerk-min()-z",
  "tBodyGyroJerk-sma()",
  "tBodyGyroJerk-energy()-x",
  "tBodyGyroJerk-energy()-y",
  "tBodyGyroJerk-energy()-z",
  "tBodyGyroJerk-iqr()-x",
  "tBodyGyroJerk-iqr()-y",
  "tBodyGyroJerk-iqr()-z",
  "tBodyGyroJerk-entropy()-x",
  "tBodyGyroJerk-entropy()-y",
  "tBodyGyroJerk-entropy()-z",
  "tBodyGyroJerk-arCoeff()1-x",
  "tBodyGyroJerk-arCoeff()2-x",
  "tBodyGyroJerk-arCoeff()3-x",
  "tBodyGyroJerk-arCoeff()4-x",
  "tBodyGyroJerk-arCoeff()1-y",
  "tBodyGyroJerk-arCoeff()2-y",
  "tBodyGyroJerk-arCoeff()3-y",
  "tBodyGyroJerk-arCoeff()4-y",
  "tBodyGyroJerk-arCoeff()1-z",
  "tBodyGyroJerk-arCoeff()2-z",
  "tBodyGyroJerk-arCoeff()3-z",
  "tBodyGyroJerk-arCoeff()4-z",
  "tBodyGyroJerk-correlation()-x,y",
  "tBodyGyroJerk-correlation()-x,z",
  "tBodyGyroJerk-correlation()-y,z",
  "tBodyAccMag-mean()",
  "tBodyAccMag-std()",
  "tBodyAccMag-mad()",
  "tBodyAccMag-max()",
  "tBodyAccMag-min()",
  "tBodyAccMag-sma()",
  "tBodyAccMag-energy()",
  "tBodyAccMag-iqr()",
  "tBodyAccMag-entropy()",
  "tBodyAccMag-arCoeff()1",
  "tBodyAccMag-arCoeff()2",
  "tBodyAccMag-arCoeff()3",
  "tBodyAccMag-arCoeff()4",
  "tGravityAccMag-mean()",
  "tGravityAccMag-std()",
  "tGravityAccMag-mad()",
  "tGravityAccMag-max()",
  "tGravityAccMag-min()",
  "tGravityAccMag-sma()",
  "tGravityAccMag-energy()",
  "tGravityAccMag-iqr()",
  "tGravityAccMag-entropy()",
  "tGravityAccMag-arCoeff()1",
  "tGravityAccMag-arCoeff()2",
  "tGravityAccMag-arCoeff()3",
  "tGravityAccMag-arCoeff()4",
  "tBodyAccJerkMag-mean()",
  "tBodyAccJerkMag-std()",
  "tBodyAccJerkMag-mad()",
  "tBodyAccJerkMag-max()",
  "tBodyAccJerkMag-min()",
  "tBodyAccJerkMag-sma()",
  "tBodyAccJerkMag-energy()",
  "tBodyAccJerkMag-iqr()",
  "tBodyAccJerkMag-entropy()",
  "tBodyAccJerkMag-arCoeff()1",
  "tBodyAccJerkMag-arCoeff()2",
  "tBodyAccJerkMag-arCoeff()3",
  "tBodyAccJerkMag-arCoeff()4",
  "tBodyGyroMag-mean()",
  "tBodyGyroMag-std()",
  "tBodyGyroMag-mad()",
  "tBodyGyroMag-max()",
  "tBodyGyroMag-min()",
  "tBodyGyroMag-sma()",
  "tBodyGyroMag-energy()",
  "tBodyGyroMag-iqr()",
  "tBodyGyroMag-entropy()",
  "tBodyGyroMag-arCoeff()1",
  "tBodyGyroMag-arCoeff()2",
  "tBodyGyroMag-arCoeff()3",
  "tBodyGyroMag-arCoeff()4",
  "tBodyGyroJerkMag-mean()",
  "tBodyGyroJerkMag-std()",
  "tBodyGyroJerkMag-mad()",
  "tBodyGyroJerkMag-max()",
  "tBodyGyroJerkMag-min()",
  "tBodyGyroJerkMag-sma()",
  "tBodyGyroJerkMag-energy()",
  "tBodyGyroJerkMag-iqr()",
  "tBodyGyroJerkMag-entropy()",
  "tBodyGyroJerkMag-arCoeff()1",
  "tBodyGyroJerkMag-arCoeff()2",
  "tBodyGyroJerkMag-arCoeff()3",
  "tBodyGyroJerkMag-arCoeff()4",
  "fBodyAcc-mean()-x",
  "fBodyAcc-mean()-y",
  "fBodyAcc-mean()-z",
  "fBodyAcc-std()-x",
  "fBodyAcc-std()-y",
  "fBodyAcc-std()-z",
  "fBodyAcc-mad()-x",
  "fBodyAcc-mad()-y",
  "fBodyAcc-mad()-z",
  "fBodyAcc-max()-x",
  "fBodyAcc-max()-y",
  "fBodyAcc-max()-z",
  "fBodyAcc-min()-x",
  "fBodyAcc-min()-y",
  "fBodyAcc-min()-z",
  "fBodyAcc-sma()",
  "fBodyAcc-energy()-x",
  "fBodyAcc-energy()-y",
  "fBodyAcc-energy()-z",
  "fBodyAcc-iqr()-x",
  "fBodyAcc-iqr()-y",
  "fBodyAcc-iqr()-z",
  "fBodyAcc-entropy()-x",
  "fBodyAcc-entropy()-y",
  "fBodyAcc-entropy()-z",
  "fBodyAcc-maxInds-x",
  "fBodyAcc-maxInds-y",
  "fBodyAcc-maxInds-z",
  "fBodyAcc-meanFreq()-x",
  "fBodyAcc-meanFreq()-y",
  "fBodyAcc-meanFreq()-z",
  "fBodyAcc-skewness()-x",
  "fBodyAcc-kurtosis()-x",
  "fBodyAcc-skewness()-y",
  "fBodyAcc-kurtosis()-y",
  "fBodyAcc-skewness()-z",
  "fBodyAcc-kurtosis()-z",
  "fBodyAcc-bandsEnergy()-1,8-x",
  "fBodyAcc-bandsEnergy()-9,16-x",
  "fBodyAcc-bandsEnergy()-17,24-x",
  "fBodyAcc-bandsEnergy()-25,32-x",
  "fBodyAcc-bandsEnergy()-33,40-x",
  "fBodyAcc-bandsEnergy()-41,48-x",
  "fBodyAcc-bandsEnergy()-49,56-x",
  "fBodyAcc-bandsEnergy()-57,64-x",
  "fBodyAcc-bandsEnergy()-1,16-x",
  "fBodyAcc-bandsEnergy()-17,32-x",
  "fBodyAcc-bandsEnergy()-33,48-x",
  "fBodyAcc-bandsEnergy()-49,64-x",
  "fBodyAcc-bandsEnergy()-1,24-x",
  "fBodyAcc-bandsEnergy()-25,48-x",
  "fBodyAcc-bandsEnergy()-1,8-y",
  "fBodyAcc-bandsEnergy()-9,16-y",
  "fBodyAcc-bandsEnergy()-17,24-y",
  "fBodyAcc-bandsEnergy()-25,32-y",
  "fBodyAcc-bandsEnergy()-33,40-y",
  "fBodyAcc-bandsEnergy()-41,48-y",
  "fBodyAcc-bandsEnergy()-49,56-y",
  "fBodyAcc-bandsEnergy()-57,64-y",
  "fBodyAcc-bandsEnergy()-1,16-y",
  "fBodyAcc-bandsEnergy()-17,32-y",
  "fBodyAcc-bandsEnergy()-33,48-y",
  "fBodyAcc-bandsEnergy()-49,64-y",
  "fBodyAcc-bandsEnergy()-1,24-y",
  "fBodyAcc-bandsEnergy()-25,48-y",
  "fBodyAcc-bandsEnergy()-1,8-z",
  "fBodyAcc-bandsEnergy()-9,16-z",
  "fBodyAcc-bandsEnergy()-17,24-z",
  "fBodyAcc-bandsEnergy()-25,32-z",
  "fBodyAcc-bandsEnergy()-33,40-z",
  "fBodyAcc-bandsEnergy()-41,48-z",
  "fBodyAcc-bandsEnergy()-49,56-z",
  "fBodyAcc-bandsEnergy()-57,64-z",
  "fBodyAcc-bandsEnergy()-1,16-z",
  "fBodyAcc-bandsEnergy()-17,32-z",
  "fBodyAcc-bandsEnergy()-33,48-z",
  "fBodyAcc-bandsEnergy()-49,64-z",
  "fBodyAcc-bandsEnergy()-1,24-z",
  "fBodyAcc-bandsEnergy()-25,48-z",
  "fBodyAccJerk-mean()-x",
  "fBodyAccJerk-mean()-y",
  "fBodyAccJerk-mean()-z",
  "fBodyAccJerk-std()-x",
  "fBodyAccJerk-std()-y",
  "fBodyAccJerk-std()-z",
  "fBodyAccJerk-mad()-x",
  "fBodyAccJerk-mad()-y",
  "fBodyAccJerk-mad()-z",
  "fBodyAccJerk-max()-x",
  "fBodyAccJerk-max()-y",
  "fBodyAccJerk-max()-z",
  "fBodyAccJerk-min()-x",
  "fBodyAccJerk-min()-y",
  "fBodyAccJerk-min()-z",
  "fBodyAccJerk-sma()",
  "fBodyAccJerk-energy()-x",
  "fBodyAccJerk-energy()-y",
  "fBodyAccJerk-energy()-z",
  "fBodyAccJerk-iqr()-x",
  "fBodyAccJerk-iqr()-y",
  "fBodyAccJerk-iqr()-z",
  "fBodyAccJerk-entropy()-x",
  "fBodyAccJerk-entropy()-y",
  "fBodyAccJerk-entropy()-z",
  "fBodyAccJerk-maxInds-x",
  "fBodyAccJerk-maxInds-y",
  "fBodyAccJerk-maxInds-z",
  "fBodyAccJerk-meanFreq()-x",
  "fBodyAccJerk-meanFreq()-y",
  "fBodyAccJerk-meanFreq()-z",
  "fBodyAccJerk-skewness()-x",
  "fBodyAccJerk-kurtosis()-x",
  "fBodyAccJerk-skewness()-y",
  "fBodyAccJerk-kurtosis()-y",
  "fBodyAccJerk-skewness()-z",
  "fBodyAccJerk-kurtosis()-z",
  "fBodyAccJerk-bandsEnergy()-1,8-x",
  "fBodyAccJerk-bandsEnergy()-9,16-x",
  "fBodyAccJerk-bandsEnergy()-17,24-x",
  "fBodyAccJerk-bandsEnergy()-25,32-x",
  "fBodyAccJerk-bandsEnergy()-33,40-x",
  "fBodyAccJerk-bandsEnergy()-41,48-x",
  "fBodyAccJerk-bandsEnergy()-49,56-x",
  "fBodyAccJerk-bandsEnergy()-57,64-x",
  "fBodyAccJerk-bandsEnergy()-1,16-x",
  "fBodyAccJerk-bandsEnergy()-17,32-x",
  "fBodyAccJerk-bandsEnergy()-33,48-x",
  "fBodyAccJerk-bandsEnergy()-49,64-x",
  "fBodyAccJerk-bandsEnergy()-1,24-x",
  "fBodyAccJerk-bandsEnergy()-25,48-x",
  "fBodyAccJerk-bandsEnergy()-1,8-y",
  "fBodyAccJerk-bandsEnergy()-9,16-y",
  "fBodyAccJerk-bandsEnergy()-17,24-y",
  "fBodyAccJerk-bandsEnergy()-25,32-y",
  "fBodyAccJerk-bandsEnergy()-33,40-y",
  "fBodyAccJerk-bandsEnergy()-41,48-y",
  "fBodyAccJerk-bandsEnergy()-49,56-y",
  "fBodyAccJerk-bandsEnergy()-57,64-y",
  "fBodyAccJerk-bandsEnergy()-1,16-y",
  "fBodyAccJerk-bandsEnergy()-17,32-y",
  "fBodyAccJerk-bandsEnergy()-33,48-y",
  "fBodyAccJerk-bandsEnergy()-49,64-y",
  "fBodyAccJerk-bandsEnergy()-1,24-y",
  "fBodyAccJerk-bandsEnergy()-25,48-y",
  "fBodyAccJerk-bandsEnergy()-1,8-z",
  "fBodyAccJerk-bandsEnergy()-9,16-z",
  "fBodyAccJerk-bandsEnergy()-17,24-z",
  "fBodyAccJerk-bandsEnergy()-25,32-z",
  "fBodyAccJerk-bandsEnergy()-33,40-z",
  "fBodyAccJerk-bandsEnergy()-41,48-z",
  "fBodyAccJerk-bandsEnergy()-49,56-z",
  "fBodyAccJerk-bandsEnergy()-57,64-z",
  "fBodyAccJerk-bandsEnergy()-1,16-z",
  "fBodyAccJerk-bandsEnergy()-17,32-z",
  "fBodyAccJerk-bandsEnergy()-33,48-z",
  "fBodyAccJerk-bandsEnergy()-49,64-z",
  "fBodyAccJerk-bandsEnergy()-1,24-z",
  "fBodyAccJerk-bandsEnergy()-25,48-z",
  "fBodyGyro-mean()-x",
  "fBodyGyro-mean()-y",
  "fBodyGyro-mean()-z",
  "fBodyGyro-std()-x",
  "fBodyGyro-std()-y",
  "fBodyGyro-std()-z",
  "fBodyGyro-mad()-x",
  "fBodyGyro-mad()-y",
  "fBodyGyro-mad()-z",
  "fBodyGyro-max()-x",
  "fBodyGyro-max()-y",
  "fBodyGyro-max()-z",
  "fBodyGyro-min()-x",
  "fBodyGyro-min()-y",
  "fBodyGyro-min()-z",
  "fBodyGyro-sma()",
  "fBodyGyro-energy()-x",
  "fBodyGyro-energy()-y",
  "fBodyGyro-energy()-z",
  "fBodyGyro-iqr()-x",
  "fBodyGyro-iqr()-y",
  "fBodyGyro-iqr()-z",
  "fBodyGyro-entropy()-x",
  "fBodyGyro-entropy()-y",
  "fBodyGyro-entropy()-z",
  "fBodyGyro-maxInds-x",
  "fBodyGyro-maxInds-y",
  "fBodyGyro-maxInds-z",
  "fBodyGyro-meanFreq()-x",
  "fBodyGyro-meanFreq()-y",
  "fBodyGyro-meanFreq()-z",
  "fBodyGyro-skewness()-x",
  "fBodyGyro-kurtosis()-x",
  "fBodyGyro-skewness()-y",
  "fBodyGyro-kurtosis()-y",
  "fBodyGyro-skewness()-z",
  "fBodyGyro-kurtosis()-z",
  "fBodyGyro-bandsEnergy()-1,8-x",
  "fBodyGyro-bandsEnergy()-9,16-x",
  "fBodyGyro-bandsEnergy()-17,24-x",
  "fBodyGyro-bandsEnergy()-25,32-x",
  "fBodyGyro-bandsEnergy()-33,40-x",
  "fBodyGyro-bandsEnergy()-41,48-x",
  "fBodyGyro-bandsEnergy()-49,56-x",
  "fBodyGyro-bandsEnergy()-57,64-x",
  "fBodyGyro-bandsEnergy()-1,16-x",
  "fBodyGyro-bandsEnergy()-17,32-x",
  "fBodyGyro-bandsEnergy()-33,48-x",
  "fBodyGyro-bandsEnergy()-49,64-x",
  "fBodyGyro-bandsEnergy()-1,24-x",
  "fBodyGyro-bandsEnergy()-25,48-x",
  "fBodyGyro-bandsEnergy()-1,8-y",
  "fBodyGyro-bandsEnergy()-9,16-y",
  "fBodyGyro-bandsEnergy()-17,24-y",
  "fBodyGyro-bandsEnergy()-25,32-y",
  "fBodyGyro-bandsEnergy()-33,40-y",
  "fBodyGyro-bandsEnergy()-41,48-y",
  "fBodyGyro-bandsEnergy()-49,56-y",
  "fBodyGyro-bandsEnergy()-57,64-y",
  "fBodyGyro-bandsEnergy()-1,16-y",
  "fBodyGyro-bandsEnergy()-17,32-y",
  "fBodyGyro-bandsEnergy()-33,48-y",
  "fBodyGyro-bandsEnergy()-49,64-y",
  "fBodyGyro-bandsEnergy()-1,24-y",
  "fBodyGyro-bandsEnergy()-25,48-y",
  "fBodyGyro-bandsEnergy()-1,8-z",
  "fBodyGyro-bandsEnergy()-9,16-z",
  "fBodyGyro-bandsEnergy()-17,24-z",
  "fBodyGyro-bandsEnergy()-25,32-z",
  "fBodyGyro-bandsEnergy()-33,40-z",
  "fBodyGyro-bandsEnergy()-41,48-z",
  "fBodyGyro-bandsEnergy()-49,56-z",
  "fBodyGyro-bandsEnergy()-57,64-z",
  "fBodyGyro-bandsEnergy()-1,16-z",
  "fBodyGyro-bandsEnergy()-17,32-z",
  "fBodyGyro-bandsEnergy()-33,48-z",
  "fBodyGyro-bandsEnergy()-49,64-z",
  "fBodyGyro-bandsEnergy()-1,24-z",
  "fBodyGyro-bandsEnergy()-25,48-z",
  "fBodyAccMag-mean()",
  "fBodyAccMag-std()",
  "fBodyAccMag-mad()",
  "fBodyAccMag-max()",
  "fBodyAccMag-min()",
  "fBodyAccMag-sma()",
  "fBodyAccMag-energy()",
  "fBodyAccMag-iqr()",
  "fBodyAccMag-entropy()",
  "fBodyAccMag-maxInds",
  "fBodyAccMag-meanFreq()",
  "fBodyAccMag-skewness()",
  "fBodyAccMag-kurtosis()",
  "fBodyBodyAccJerkMag-mean()",
  "fBodyBodyAccJerkMag-std()",
  "fBodyBodyAccJerkMag-mad()",
  "fBodyBodyAccJerkMag-max()",
  "fBodyBodyAccJerkMag-min()",
  "fBodyBodyAccJerkMag-sma()",
  "fBodyBodyAccJerkMag-energy()",
  "fBodyBodyAccJerkMag-iqr()",
  "fBodyBodyAccJerkMag-entropy()",
  "fBodyBodyAccJerkMag-maxInds",
  "fBodyBodyAccJerkMag-meanFreq()",
  "fBodyBodyAccJerkMag-skewness()",
  "fBodyBodyAccJerkMag-kurtosis()",
  "fBodyBodyGyroMag-mean()",
  "fBodyBodyGyroMag-std()",
  "fBodyBodyGyroMag-mad()",
  "fBodyBodyGyroMag-max()",
  "fBodyBodyGyroMag-min()",
  "fBodyBodyGyroMag-sma()",
  "fBodyBodyGyroMag-energy()",
  "fBodyBodyGyroMag-iqr()",
  "fBodyBodyGyroMag-entropy()",
  "fBodyBodyGyroMag-maxInds",
  "fBodyBodyGyroMag-meanFreq()",
  "fBodyBodyGyroMag-skewness()",
  "fBodyBodyGyroMag-kurtosis()",
  "fBodyBodyGyroJerkMag-mean()",
  "fBodyBodyGyroJerkMag-std()",
  "fBodyBodyGyroJerkMag-mad()",
  "fBodyBodyGyroJerkMag-max()",
  "fBodyBodyGyroJerkMag-min()",
  "fBodyBodyGyroJerkMag-sma()",
  "fBodyBodyGyroJerkMag-energy()",
  "fBodyBodyGyroJerkMag-iqr()",
  "fBodyBodyGyroJerkMag-entropy()",
  "fBodyBodyGyroJerkMag-maxInds",
  "fBodyBodyGyroJerkMag-meanFreq()",
  "fBodyBodyGyroJerkMag-skewness()",
  "fBodyBodyGyroJerkMag-kurtosis()",
  "angle(tBodyAccMean,gravity)",
  "angle(tBodyAccJerkMean,gravityMean)",
  "angle(tBodyGyroMean,gravityMean)",
  "angle(tBodyGyroJerkMean,gravityMean)",
  "angle(x,gravityMean)",
  "angle(y,gravityMean)",
  "angle(z,gravityMean)"]

/-- The key sequence that the four group loops of extractFeatures followed by
extractAngleFeatures emit, written out explicitly (567 writes; the six extra
entries are the repeated per-axis writes of the three frequency-group sma
keys). -/
def genKeys : List String := [
  "tBodyAcc-mean()-x",
  "tBodyAcc-std()-x",
  "tBodyAcc-mad()-x",
  "tBodyAcc-max()-x",
  "tBodyAcc-min()-x",
  "tBodyAcc-energy()-x",
  "tBodyAcc-iqr()-x",
  "tBodyAcc-entropy()-x",
  "tBodyAcc-arCoeff()1-x",
  "tBodyAcc-arCoeff()2-x",
  "tBodyAcc-arCoeff()3-x",
  "tBodyAcc-arCoeff()4-x",
  "tBodyAcc-mean()-y",
  "tBodyAcc-std()-y",
  "tBodyAcc-mad()-y",
  "tBodyAcc-max()-y",
  "tBodyAcc-min()-y",
  "tBodyAcc-energy()-y",
  "tBodyAcc-iqr()-y",
  "tBodyAcc-entropy()-y",
  "tBodyAcc-arCoeff()1-y",
  "tBodyAcc-arCoeff()2-y",
  "tBodyAcc-arCoeff()3-y",
  "tBodyAcc-arCoeff()4-y",
  "tBodyAcc-mean()-z",
  "tBodyAcc-std()-z",
  "tBodyAcc-mad()-z",
  "tBodyAcc-max()-z",
  "tBodyAcc-min()-z",
  "tBodyAcc-energy()-z",
  "tBodyAcc-iqr()-z",
  "tBodyAcc-entropy()-z",
  "tBodyAcc-arCoeff()1-z",
  "tBodyAcc-arCoeff()2-z",
  "tBodyAcc-arCoeff()3-z",
  "tBodyAcc-arCoeff()4-z",
  "tBodyAcc-sma()",
  "tBodyAcc-correlation()-x,y",
  "tBodyAcc-correlation()-x,z",
  "tBodyAcc-correlation()-y,z",
  "tGravityAcc-mean()-x",
  "tGravityAcc-std()-x",
  "tGravityAcc-mad()-x",
  "tGravityAcc-max()-x",
  "tGravityAcc-min()-x",
  "tGravityAcc-energy()-x",
  "tGravityAcc-iqr()-x",
  "tGravityAcc-entropy()-x",
  "tGravityAcc-arCoeff()1-x",
  "tGravityAcc-arCoeff()2-x",
  "tGravityAcc-arCoeff()3-x",
  "tGravityAcc-arCoeff()4-x",
  "tGravityAcc-mean()-y",
  "tGravityAcc-std()-y",
  "tGravityAcc-mad()-y",
  "tGravityAcc-max()-y",
  "tGravityAcc-min()-y",
  "tGravityAcc-energy()-y",
  "tGravityAcc-iqr()-y",
  "tGravityAcc-entropy()-y",
  "tGravityAcc-arCoeff()1-y",
  "tGravityAcc-arCoeff()2-y",
  "tGravityAcc-arCoeff()3-y",
  "tGravityAcc-arCoeff()4-y",
  "tGravityAcc-mean()-z",
  "tGravityAcc-std()-z",
  "tGravityAcc-mad()-z",
  "tGravityAcc-max()-z",
  "tGravityAcc-min()-z",
  "tGravityAcc-energy()-z",
  "tGravityAcc-iqr()-z",
  "tGravityAcc-entropy()-z",
  "tGravityAcc-arCoeff()1-z",
  "tGravityAcc-arCoeff()2-z",
  "tGravityAcc-arCoeff()3-z",
  "tGravityAcc-arCoeff()4-z",
  "tGravityAcc-sma()",
  "tGravityAcc-correlation()-x,y",
  "tGravityAcc-correlation()-x,z",
  "tGravityAcc-correlation()-y,z",
  "tBodyAccJerk-mean()-x",
  "tBodyAccJerk-std()-x",
  "tBodyAccJerk-mad()-x",
  "tBodyAccJerk-max()-x",
  "tBodyAccJerk-min()-x",
  "tBodyAccJerk-energy()-x",
  "tBodyAccJerk-iqr()-x",
  "tBodyAccJerk-entropy()-x",
  "tBodyAccJerk-arCoeff()1-x",
  "tBodyAccJerk-arCoeff()2-x",
  "tBodyAccJerk-arCoeff()3-x",
  "tBodyAccJerk-arCoeff()4-x",
  "tBodyAccJerk-mean()-y",
  "tBodyAccJerk-std()-y",
  "tBodyAccJerk-mad()-y",
  "tBodyAccJerk-max()-y",
  "tBodyAccJerk-min()-y",
  "tBodyAccJerk-energy()-y",
  "tBodyAccJerk-iqr()-y",
  "tBodyAccJerk-entropy()-y",
  "tBodyAccJerk-arCoeff()1-y",
  "tBodyAccJerk-arCoeff()2-y",
  "tBodyAccJerk-arCoeff()3-y",
  "tBodyAccJerk-arCoeff()4-y",
  "tBodyAccJerk-mean()-z",
  "tBodyAccJerk-std()-z",
  "tBodyAccJerk-mad()-z",
  "tBodyAccJerk-max()-z",
  "tBodyAccJerk-min()-z",
  "tBodyAccJerk-energy()-z",
  "tBodyAccJerk-iqr()-z",
  "tBodyAccJerk-entropy()-z",
  "tBodyAccJerk-arCoeff()1-z",
  "tBodyAccJerk-arCoeff()2-z",
  "tBodyAccJerk-arCoeff()3-z",
  "tBodyAccJerk-arCoeff()4-z",
  "tBodyAccJerk-sma()",
  "tBodyAccJerk-correlation()-x,y",
  "tBodyAccJerk-correlation()-x,z",
  "tBodyAccJerk-correlation()-y,z",
  "tBodyGyro-mean()-x",
  "tBodyGyro-std()-x",
  "tBodyGyro-mad()-x",
  "tBodyGyro-max()-x",
  "tBodyGyro-min()-x",
  "tBodyGyro-energy()-x",
  "tBodyGyro-iqr()-x",
  "tBodyGyro-entropy()-x",
  "tBodyGyro-arCoeff()1-x",
  "tBodyGyro-arCoeff()2-x",
  "tBodyGyro-arCoeff()3-x",
  "tBodyGyro-arCoeff()4-x",
  "tBodyGyro-mean()-y",
  "tBodyGyro-std()-y",
  "tBodyGyro-mad()-y",
  "tBodyGyro-max()-y",
  "tBodyGyro-min()-y",
  "tBodyGyro-energy()-y",
  "tBodyGyro-iqr()-y",
  "tBodyGyro-entropy()-y",
  "tBodyGyro-arCoeff()1-y",
  "tBodyGyro-arCoeff()2-y",
  "tBodyGyro-arCoeff()3-y",
  "tBodyGyro-arCoeff()4-y",
  "tBodyGyro-mean()-z",
  "tBodyGyro-std()-z",
  "tBodyGyro-mad()-z",
  "tBodyGyro-max()-z",
  "tBodyGyro-min()-z",
  "tBodyGyro-energy()-z",
  "tBodyGyro-iqr()-z",
  "tBodyGyro-entropy()-z",
  "tBodyGyro-arCoeff()1-z",
  "tBodyGyro-arCoeff()2-z",
  "tBodyGyro-arCoeff()3-z",
  "tBodyGyro-arCoeff()4-z",
  "tBodyGyro-sma()",
  "tBodyGyro-correlation()-x,y",
  "tBodyGyro-correlation()-x,z",
  "tBodyGyro-correlation()-y,z",
  "tBodyGyroJerk-mean()-x",
  "tBodyGyroJerk-std()-x",
  "tBodyGyroJerk-mad()-x",
  "tBodyGyroJerk-max()-x",
  "tBodyGyroJerk-min()-x",
  "tBodyGyroJerk-energy()-x",
  "tBodyGyroJerk-iqr()-x",
  "tBodyGyroJerk-entropy()-x",
  "tBodyGyroJerk-arCoeff()1-x",
  "tBodyGyroJerk-arCoeff()2-x",
  "tBodyGyroJerk-arCoeff()3-x",
  "tBodyGyroJerk-arCoeff()4-x",
  "tBodyGyroJerk-mean()-y",
  "tBodyGyroJerk-std()-y",
  "tBodyGyroJerk-mad()-y",
  "tBodyGyroJerk-max()-y",
  "tBodyGyroJerk-min()-y",
  "tBodyGyroJerk-energy()-y",
  "tBodyGyroJerk-iqr()-y",
  "tBodyGyroJerk-entropy()-y",
  "tBodyGyroJerk-arCoeff()1-y",
  "tBodyGyroJerk-arCoeff()2-y",
  "tBodyGyroJerk-arCoeff()3-y",
  "tBodyGyroJerk-arCoeff()4-y",
  "tBodyGyroJerk-mean()-z",
  "tBodyGyroJerk-std()-z",
  "tBodyGyroJerk-mad()-z",
  "tBodyGyroJerk-max()-z",
  "tBodyGyroJerk-min()-z",
  "tBodyGyroJerk-energy()-z",
  "tBodyGyroJerk-iqr()-z",
  "tBodyGyroJerk-entropy()-z",
  "tBodyGyroJerk-arCoeff()1-z",
  "tBodyGyroJerk-arCoeff()2-z",
  "tBodyGyroJerk-arCoeff()3-z",
  "tBodyGyroJerk-arCoeff()4-z",
  "tBodyGyroJerk-sma()",
  "tBodyGyroJerk-correlation()-x,y",
  "tBodyGyroJerk-correlation()-x,z",
  "tBodyGyroJerk-correlation()-y,z",
  "tBodyAccMag-mean()",
  "tBodyAccMag-std()",
  "tBodyAccMag-mad()",
  "tBodyAccMag-max()",
  "tBodyAccMag-min()",
  "tBodyAccMag-energy()",
  "tBodyAccMag-iqr()",
  "tBodyAccMag-entropy()",
  "tBodyAccMag-arCoeff()1",
  "tBodyAccMag-arCoeff()2",
  "tBodyAccMag-arCoeff()3",
  "tBodyAccMag-arCoeff()4",
  "tBodyAccMag-sma()",
  "tGravityAccMag-mean()",
  "tGravityAccMag-std()",
  "tGravityAccMag-mad()",
  "tGravityAccMag-max()",
  "tGravityAccMag-min()",
  "tGravityAccMag-energy()",
  "tGravityAccMag-iqr()",
  "tGravityAccMag-entropy()",
  "tGravityAccMag-arCoeff()1",
  "tGravityAccMag-arCoeff()2",
  "tGravityAccMag-arCoeff()3",
  "tGravityAccMag-arCoeff()4",
  "tGravityAccMag-sma()",
  "tBodyAccJerkMag-mean()",
  "tBodyAccJerkMag-std()",
  "tBodyAccJerkMag-mad()",
  "tBodyAccJerkMag-max()",
  "tBodyAccJerkMag-min()",
  "tBodyAccJerkMag-energy()",
  "tBodyAccJerkMag-iqr()",
  "tBodyAccJerkMag-entropy()",
  "tBodyAccJerkMag-arCoeff()1",
  "tBodyAccJerkMag-arCoeff()2",
  "tBodyAccJerkMag-arCoeff()3",
  "tBodyAccJerkMag-arCoeff()4",
  "tBodyAccJerkMag-sma()",
  "tBodyGyroMag-mean()",
  "tBodyGyroMag-std()",
  "tBodyGyroMag-mad()",
  "tBodyGyroMag-max()",
  "tBodyGyroMag-min()",
  "tBodyGyroMag-energy()",
  "tBodyGyroMag-iqr()",
  "tBodyGyroMag-entropy()",
  "tBodyGyroMag-arCoeff()1",
  "tBodyGyroMag-arCoeff()2",
  "tBodyGyroMag-arCoeff()3",
  "tBodyGyroMag-arCoeff()4",
  "tBodyGyroMag-sma()",
  "tBodyGyroJerkMag-mean()",
  "tBodyGyroJerkMag-std()",
  "tBodyGyroJerkMag-mad()",
  "tBodyGyroJerkMag-max()",
  "tBodyGyroJerkMag-min()",
  "tBodyGyroJerkMag-energy()",
  "tBodyGyroJerkMag-iqr()",
  "tBodyGyroJerkMag-entropy()",
  "tBodyGyroJerkMag-arCoeff()1",
  "tBodyGyroJerkMag-arCoeff()2",
  "tBodyGyroJerkMag-arCoeff()3",
  "tBodyGyroJerkMag-arCoeff()4",
  "tBodyGyroJerkMag-sma()",
  "fBodyAcc-mean()-x",
  "fBodyAcc-std()-x",
  "fBodyAcc-mad()-x",
  "fBodyAcc-max()-x",
  "fBodyAcc-min()-x",
  "fBodyAcc-energy()-x",
  "fBodyAcc-iqr()-x",
  "fBodyAcc-entropy()-x",
  "fBodyAcc-meanFreq()-x",
  "fBodyAcc-maxInds-x",
  "fBodyAcc-skewness()-x",
  "fBodyAcc-kurtosis()-x",
  "fBodyAcc-sma()",
  "fBodyAcc-bandsEnergy()-1,8-x",
  "fBodyAcc-bandsEnergy()-9,16-x",
  "fBodyAcc-bandsEnergy()-17,24-x",
  "fBodyAcc-bandsEnergy()-25,32-x",
  "fBodyAcc-bandsEnergy()-33,40-x",
  "fBodyAcc-bandsEnergy()-41,48-x",
  "fBodyAcc-bandsEnergy()-49,56-x",
  "fBodyAcc-bandsEnergy()-57,64-x",
  "fBodyAcc-bandsEnergy()-1,16-x",
  "fBodyAcc-bandsEnergy()-17,32-x",
  "fBodyAcc-bandsEnergy()-33,48-x",
  "fBodyAcc-bandsEnergy()-49,64-x",
  "fBodyAcc-bandsEnergy()-1,24-x",
  "fBodyAcc-bandsEnergy()-25,48-x",
  "fBodyAcc-mean()-y",
  "fBodyAcc-std()-y",
  "fBodyAcc-mad()-y",
  "fBodyAcc-max()-y",
  "fBodyAcc-min()-y",
  "fBodyAcc-energy()-y",
  "fBodyAcc-iqr()-y",
  "fBodyAcc-entropy()-y",
  "fBodyAcc-meanFreq()-y",
  "fBodyAcc-maxInds-y",
  "fBodyAcc-skewness()-y",
  "fBodyAcc-kurtosis()-y",
  "fBodyAcc-sma()",
  "fBodyAcc-bandsEnergy()-1,8-y",
  "fBodyAcc-bandsEnergy()-9,16-y",
  "fBodyAcc-bandsEnergy()-17,24-y",
  "fBodyAcc-bandsEnergy()-25,32-y",
  "fBodyAcc-bandsEnergy()-33,40-y",
  "fBodyAcc-bandsEnergy()-41,48-y",
  "fBodyAcc-bandsEnergy()-49,56-y",
  "fBodyAcc-bandsEnergy()-57,64-y",
  "fBodyAcc-bandsEnergy()-1,16-y",
  "fBodyAcc-bandsEnergy()-17,32-y",
  "fBodyAcc-bandsEnergy()-33,48-y",
  "fBodyAcc-bandsEnergy()-49,64-y",
  "fBodyAcc-bandsEnergy()-1,24-y",
  "fBodyAcc-bandsEnergy()-25,48-y",
  "fBodyAcc-mean()-z",
  "fBodyAcc-std()-z",
  "fBodyAcc-mad()-z",
  "fBodyAcc-max()-z",
  "fBodyAcc-min()-z",
  "fBodyAcc-energy()-z",
  "fBodyAcc-iqr()-z",
  "fBodyAcc-entropy()-z",
  "fBodyAcc-meanFreq()-z",
  "fBodyAcc-maxInds-z",
  "fBodyAcc-skewness()-z",
  "fBodyAcc-kurtosis()-z",
  "fBodyAcc-sma()",
  "fBodyAcc-bandsEnergy()-1,8-z",
  "fBodyAcc-bandsEnergy()-9,16-z",
  "fBodyAcc-bandsEnergy()-17,24-z",
  "fBodyAcc-bandsEnergy()-25,32-z",
  "fBodyAcc-bandsEnergy()-33,40-z",
  "fBodyAcc-bandsEnergy()-41,48-z",
  "fBodyAcc-bandsEnergy()-49,56-z",
  "fBodyAcc-bandsEnergy()-57,64-z",
  "fBodyAcc-bandsEnergy()-1,16-z",
  "fBodyAcc-bandsEnergy()-17,32-z",
  "fBodyAcc-bandsEnergy()-33,48-z",
  "fBodyAcc-bandsEnergy()-49,64-z",
  "fBodyAcc-bandsEnergy()-1,24-z",
  "fBodyAcc-bandsEnergy()-25,48-z",
  "fBodyAccJerk-mean()-x",
  "fBodyAccJerk-std()-x",
  "fBodyAccJerk-mad()-x",
  "fBodyAccJerk-max()-x",
  "fBodyAccJerk-min()-x",
  "fBodyAccJerk-energy()-x",
  "fBodyAccJerk-iqr()-x",
  "fBodyAccJerk-entropy()-x",
  "fBodyAccJerk-meanFreq()-x",
  "fBodyAccJerk-maxInds-x",
  "fBodyAccJerk-skewness()-x",
  "fBodyAccJerk-kurtosis()-x",
  "fBodyAccJerk-sma()",
  "fBodyAccJerk-bandsEnergy()-1,8-x",
  "fBodyAccJerk-bandsEnergy()-9,16-x",
  "fBodyAccJerk-bandsEnergy()-17,24-x",
  "fBodyAccJerk-bandsEnergy()-25,32-x",
  "fBodyAccJerk-bandsEnergy()-33,40-x",
  "fBodyAccJerk-bandsEnergy()-41,48-x",
  "fBodyAccJerk-bandsEnergy()-49,56-x",
  "fBodyAccJerk-bandsEnergy()-57,64-x",
  "fBodyAccJerk-bandsEnergy()-1,16-x",
  "fBodyAccJerk-bandsEnergy()-17,32-x",
  "fBodyAccJerk-bandsEnergy()-33,48-x",
  "fBodyAccJerk-bandsEnergy()-49,64-x",
  "fBodyAccJerk-bandsEnergy()-1,24-x",
  "fBodyAccJerk-bandsEnergy()-25,48-x",
  "fBodyAccJerk-mean()-y",
  "fBodyAccJerk-std()-y",
  "fBodyAccJerk-mad()-y",
  "fBodyAccJerk-max()-y",
  "fBodyAccJerk-min()-y",
  "fBodyAccJerk-energy()-y",
  "fBodyAccJerk-iqr()-y",
  "fBodyAccJerk-entropy()-y",
  "fBodyAccJerk-meanFreq()-y",
  "fBodyAccJerk-maxInds-y",
  "fBodyAccJerk-skewness()-y",
  "fBodyAccJerk-kurtosis()-y",
  "fBodyAccJerk-sma()",
  "fBodyAccJerk-bandsEnergy()-1,8-y",
  "fBodyAccJerk-bandsEnergy()-9,16-y",
  "fBodyAccJerk-bandsEnergy()-17,24-y",
  "fBodyAccJerk-bandsEnergy()-25,32-y",
  "fBodyAccJerk-bandsEnergy()-33,40-y",
  "fBodyAccJerk-bandsEnergy()-41,48-y",
  "fBodyAccJerk-bandsEnergy()-49,56-y",
  "fBodyAccJerk-bandsEnergy()-57,64-y",
  "fBodyAccJerk-bandsEnergy()-1,16-y",
  "fBodyAccJerk-bandsEnergy()-17,32-y",
  "fBodyAccJerk-bandsEnergy()-33,48-y",
  "fBodyAccJerk-bandsEnergy()-49,64-y",
  "fBodyAccJerk-bandsEnergy()-1,24-y",
  "fBodyAccJerk-bandsEnergy()-25,48-y",
  "fBodyAccJerk-mean()-z",
  "fBodyAccJerk-std()-z",
  "fBodyAccJerk-mad()-z",
  "fBodyAccJerk-max()-z",
  "fBodyAccJerk-min()-z",
  "fBodyAccJerk-energy()-z",
  "fBodyAccJerk-iqr()-z",
  "fBodyAccJerk-entropy()-z",
  "fBodyAccJerk-meanFreq()-z",
  "fBodyAccJerk-maxInds-z",
  "fBodyAccJerk-skewness()-z",
  "fBodyAccJerk-kurtosis()-z",
  "fBodyAccJerk-sma()",
  "fBodyAccJerk-bandsEnergy()-1,8-z",
  "fBodyAccJerk-bandsEnergy()-9,16-z",
  "fBodyAccJerk-bandsEnergy()-17,24-z",
  "fBodyAccJerk-bandsEnergy()-25,32-z",
  "fBodyAccJerk-bandsEnergy()-33,40-z",
  "fBodyAccJerk-bandsEnergy()-41,48-z",
  "fBodyAccJerk-bandsEnergy()-49,56-z",
  "fBodyAccJerk-bandsEnergy()-57,64-z",
  "fBodyAccJerk-bandsEnergy()-1,16-z",
  "fBodyAccJerk-bandsEnergy()-17,32-z",
  "fBodyAccJerk-bandsEnergy()-33,48-z",
  "fBodyAccJerk-bandsEnergy()-49,64-z",
  "fBodyAccJerk-bandsEnergy()-1,24-z",
  "fBodyAccJerk-bandsEnergy()-25,48-z",
  "fBodyGyro-mean()-x",
  "fBodyGyro-std()-x",
  "fBodyGyro-mad()-x",
  "fBodyGyro-max()-x",
  "fBodyGyro-min()-x",
  "fBodyGyro-energy()-x",
  "fBodyGyro-iqr()-x",
  "fBodyGyro-entropy()-x",
  "fBodyGyro-meanFreq()-x",
  "fBodyGyro-maxInds-x",
  "fBodyGyro-skewness()-x",
  "fBodyGyro-kurtosis()-x",
  "fBodyGyro-sma()",
  "fBodyGyro-bandsEnergy()-1,8-x",
  "fBodyGyro-bandsEnergy()-9,16-x",
  "fBodyGyro-bandsEnergy()-17,24-x",
  "fBodyGyro-bandsEnergy()-25,32-x",
  "fBodyGyro-bandsEnergy()-33,40-x",
  "fBodyGyro-bandsEnergy()-41,48-x",
  "fBodyGyro-bandsEnergy()-49,56-x",
  "fBodyGyro-bandsEnergy()-57,64-x",
  "fBodyGyro-bandsEnergy()-1,16-x",
  "fBodyGyro-bandsEnergy()-17,32-x",
  "fBodyGyro-bandsEnergy()-33,48-x",
  "fBodyGyro-bandsEnergy()-49,64-x",
  "fBodyGyro-bandsEnergy()-1,24-x",
  "fBodyGyro-bandsEnergy()-25,48-x",
  "fBodyGyro-mean()-y",
  "fBodyGyro-std()-y",
  "fBodyGyro-mad()-y",
  "fBodyGyro-max()-y",
  "fBodyGyro-min()-y",
  "fBodyGyro-energy()-y",
  "fBodyGyro-iqr()-y",
  "fBodyGyro-entropy()-y",
  "fBodyGyro-meanFreq()-y",
  "fBodyGyro-maxInds-y",
  "fBodyGyro-skewness()-y",
  "fBodyGyro-kurtosis()-y",
  "fBodyGyro-sma()",
  "fBodyGyro-bandsEnergy()-1,8-y",
  "fBodyGyro-bandsEnergy()-9,16-y",
  "fBodyGyro-bandsEnergy()-17,24-y",
  "fBodyGyro-bandsEnergy()-25,32-y",
  "fBodyGyro-bandsEnergy()-33,40-y",
  "fBodyGyro-bandsEnergy()-41,48-y",
  "fBodyGyro-bandsEnergy()-49,56-y",
  "fBodyGyro-bandsEnergy()-57,64-y",
  "fBodyGyro-bandsEnergy()-1,16-y",
  "fBodyGyro-bandsEnergy()-17,32-y",
  "fBodyGyro-bandsEnergy()-33,48-y",
  "fBodyGyro-bandsEnergy()-49,64-y",
  "fBodyGyro-bandsEnergy()-1,24-y",
  "fBodyGyro-bandsEnergy()-25,48-y",
  "fBodyGyro-mean()-z",
  "fBodyGyro-std()-z",
  "fBodyGyro-mad()-z",
  "fBodyGyro-max()-z",
  "fBodyGyro-min()-z",
  "fBodyGyro-energy()-z",
  "fBodyGyro-iqr()-z",
  "fBodyGyro-entropy()-z",
  "fBodyGyro-meanFreq()-z",
  "fBodyGyro-maxInds-z",
  "fBodyGyro-skewness()-z",
  "fBodyGyro-kurtosis()-z",
  "fBodyGyro-sma()",
  "fBodyGyro-bandsEnergy()-1,8-z",
  "fBodyGyro-bandsEnergy()-9,16-z",
  "fBodyGyro-bandsEnergy()-17,24-z",
  "fBodyGyro-bandsEnergy()-25,32-z",
  "fBodyGyro-bandsEnergy()-33,40-z",
  "fBodyGyro-bandsEnergy()-41,48-z",
  "fBodyGyro-bandsEnergy()-49,56-z",
  "fBodyGyro-bandsEnergy()-57,64-z",
  "fBodyGyro-bandsEnergy()-1,16-z",
  "fBodyGyro-bandsEnergy()-17,32-z",
  "fBodyGyro-bandsEnergy()-33,48-z",
  "fBodyGyro-bandsEnergy()-49,64-z",
  "fBodyGyro-bandsEnergy()-1,24-z",
  "fBodyGyro-bandsEnergy()-25,48-z",
  "fBodyAccMag-mean()",
  "fBodyAccMag-std()",
  "fBodyAccMag-mad()",
  "fBodyAccMag-max()",
  "fBodyAccMag-min()",
  "fBodyAccMag-energy()",
  "fBodyAccMag-iqr()",
  "fBodyAccMag-entropy()",
  "fBodyAccMag-meanFreq()",
  "fBodyAccMag-maxInds",
  "fBodyAccMag-skewness()",
  "fBodyAccMag-kurtosis()",
  "fBodyAccMag-sma()",
  "fBodyBodyAccJerkMag-mean()",
  "fBodyBodyAccJerkMag-std()",
  "fBodyBodyAccJerkMag-mad()",
  "fBodyBodyAccJerkMag-max()",
  "fBodyBodyAccJerkMag-min()",
  "fBodyBodyAccJerkMag-energy()",
  "fBodyBodyAccJerkMag-iqr()",
  "fBodyBodyAccJerkMag-entropy()",
  "fBodyBodyAccJerkMag-meanFreq()",
  "fBodyBodyAccJerkMag-maxInds",
  "fBodyBodyAccJerkMag-skewness()",
  "fBodyBodyAccJerkMag-kurtosis()",
  "fBodyBodyAccJerkMag-sma()",
  "fBodyBodyGyroMag-mean()",
  "fBodyBodyGyroMag-std()",
  "fBodyBodyGyroMag-mad()",
  "fBodyBodyGyroMag-max()",
  "fBodyBodyGyroMag-min()",
  "fBodyBodyGyroMag-energy()",
  "fBodyBodyGyroMag-iqr()",
  "fBodyBodyGyroMag-entropy()",
  "fBodyBodyGyroMag-meanFreq()",
  "fBodyBodyGyroMag-maxInds",
  "fBodyBodyGyroMag-skewness()",
  "fBodyBodyGyroMag-kurtosis()",
  "fBodyBodyGyroMag-sma()",
  "fBodyBodyGyroJerkMag-mean()",
  "fBodyBodyGyroJerkMag-std()",
  "fBodyBodyGyroJerkMag-mad()",
  "fBodyBodyGyroJerkMag-max()",
  "fBodyBodyGyroJerkMag-min()",
  "fBodyBodyGyroJerkMag-energy()",
  "fBodyBodyGyroJerkMag-iqr()",
  "fBodyBodyGyroJerkMag-entropy()",
  "fBodyBodyGyroJerkMag-meanFreq()",
  "fBodyBodyGyroJerkMag-maxInds",
  "fBodyBodyGyroJerkMag-skewness()",
  "fBodyBodyGyroJerkMag-kurtosis()",
  "fBodyBodyGyroJerkMag-sma()",
  "angle(tBodyAccMean,gravity)",
  "angle(tBodyAccJerkMean,gravityMean)",
  "angle(tBodyGyroMean,gravityMean)",
  "angle(tBodyGyroJerkMean,gravityMean)",
  "angle(x,gravityMean)",
  "angle(y,gravityMean)",
  "angle(z,gravityMean)"]

/-- For each canonical key, the index of its first occurrence in genKeys. -/
def c1permA : List Nat := [0, 12, 24, 1, 13, 25, 2, 14, 26, 3, 15, 27, 4, 16, 28, 36, 5, 17, 29, 6, 18, 30, 7, 19, 31, 8, 9, 10, 11, 20, 21, 22, 23, 32, 33, 34, 35, 37, 38, 39, 40, 52, 64, 41, 53, 65, 42, 54, 66, 43, 55, 67, 44, 56, 68, 76, 45, 57, 69, 46, 58, 70, 47, 59, 71, 48, 49, 50, 51, 60, 61, 62, 63, 72, 73, 74, 75, 77, 78, 79, 80, 92, 104, 81, 93, 105, 82, 94, 106, 83, 95, 107, 84, 96, 108, 116, 85, 97, 109, 86, 98, 110, 87, 99, 111, 88, 89, 90, 91, 100, 101, 102, 103, 112, 113, 114, 115, 117, 118, 119, 120, 132, 144, 121, 133, 145, 122, 134, 146, 123, 135, 147, 124, 136, 148, 156, 125, 137, 149, 126, 138, 150, 127, 139, 151, 128, 129, 130, 131, 140, 141, 142, 143, 152, 153, 154, 155, 157, 158, 159, 160, 172, 184, 161, 173, 185, 162, 174, 186, 163, 175, 187, 164, 176, 188, 196, 165, 177, 189, 166, 178, 190, 167, 179, 191, 168, 169, 170, 171, 180, 181, 182, 183, 192, 193, 194, 195, 197, 198, 199, 200, 201, 202, 203, 204, 212, 205, 206, 207, 208, 209, 210, 211, 213, 214, 215, 216, 217, 225, 218, 219, 220, 221, 222, 223, 224, 226, 227, 228, 229, 230, 238, 231, 232, 233, 234, 235, 236, 237, 239, 240, 241, 242, 243, 251, 244, 245, 246, 247, 248, 249, 250, 252, 253, 254, 255, 256, 264, 257, 258, 259, 260, 261, 262, 263, 265, 292, 319, 266, 293, 320, 267, 294, 321, 268, 295, 322, 269, 296, 323, 277, 270, 297, 324, 271, 298, 325, 272, 299, 326, 274, 301, 328, 273, 300, 327, 275, 276, 302, 303, 329, 330, 278, 279, 280, 281, 282, 283, 284, 285, 286, 287, 288, 289, 290, 291, 305, 306, 307, 308, 309, 310, 311, 312, 313, 314, 315, 316, 317, 318, 332, 333, 334, 335, 336, 337, 338, 339, 340, 341, 342, 343, 344, 345, 346, 373, 400, 347, 374, 401, 348, 375, 402, 349, 376, 403, 350, 377, 404, 358, 351, 378, 405, 352, 379, 406, 353, 380, 407, 355, 382, 409, 354, 381, 408, 356, 357, 383, 384, 410, 411, 359, 360, 361, 362, 363, 364, 365, 366, 367, 368, 369, 370, 371, 372, 386, 387, 388, 389, 390, 391, 392, 393, 394, 395, 396, 397, 398, 399, 413, 414, 415, 416, 417, 418, 419, 420, 421, 422, 423, 424, 425, 426, 427, 454, 481, 428, 455, 482, 429, 456, 483, 430, 457, 484, 431, 458, 485, 439, 432, 459, 486, 433, 460, 487, 434, 461, 488, 436, 463, 490, 435, 462, 489, 437, 438, 464, 465, 491, 492, 440, 441, 442, 443, 444, 445, 446, 447, 448, 449, 450, 451, 452, 453, 467, 468, 469, 470, 471, 472, 473, 474, 475, 476, 477, 478, 479, 480, 494, 495, 496, 497, 498, 499, 500, 501, 502, 503, 504, 505, 506, 507, 508, 509, 510, 511, 512, 520, 513, 514, 515, 517, 516, 518, 519, 521, 522, 523, 524, 525, 533, 526, 527, 528, 530, 529, 531, 532, 534, 535, 536, 537, 538, 546, 539, 540, 541, 543, 542, 544, 545, 547, 548, 549, 550, 551, 559, 552, 553, 554, 556, 555, 557, 558, 560, 561, 562, 563, 564, 565, 566]

/-- For each genKeys entry, its index in feature_list. -/
def c1permB : List Nat := [0, 3, 6, 9, 12, 16, 19, 22, 25, 26, 27, 28, 1, 4, 7, 10, 13, 17, 20, 23, 29, 30, 31, 32, 2, 5, 8, 11, 14, 18, 21, 24, 33, 34, 35, 36, 15, 37, 38, 39, 40, 43, 46, 49, 52, 56, 59, 62, 65, 66, 67, 68, 41, 44, 47, 50, 53, 57, 60, 63, 69, 70, 71, 72, 42, 45, 48, 51, 54, 58, 61, 64, 73, 74, 75, 76, 55, 77, 78, 79, 80, 83, 86, 89, 92, 96, 99, 102, 105, 106, 107, 108, 81, 84, 87, 90, 93, 97, 100, 103, 109, 110, 111, 112, 82, 85, 88, 91, 94, 98, 101, 104, 113, 114, 115, 116, 95, 117, 118, 119, 120, 123, 126, 129, 132, 136, 139, 142, 145, 146, 147, 148, 121, 124, 127, 130, 133, 137, 140, 143, 149, 150, 151, 152, 122, 125, 128, 131, 134, 138, 141, 144, 153, 154, 155, 156, 135, 157, 158, 159, 160, 163, 166, 169, 172, 176, 179, 182, 185, 186, 187, 188, 161, 164, 167, 170, 173, 177, 180, 183, 189, 190, 191, 192, 162, 165, 168, 171, 174, 178, 181, 184, 193, 194, 195, 196, 175, 197, 198, 199, 200, 201, 202, 203, 204, 206, 207, 208, 209, 210, 211, 212, 205, 213, 214, 215, 216, 217, 219, 220, 221, 222, 223, 224, 225, 218, 226, 227, 228, 229, 230, 232, 233, 234, 235, 236, 237, 238, 231, 239, 240, 241, 242, 243, 245, 246, 247, 248, 249, 250, 251, 244, 252, 253, 254, 255, 256, 258, 259, 260, 261, 262, 263, 264, 257, 265, 268, 271, 274, 277, 281, 284, 287, 293, 290, 296, 297, 280, 302, 303, 304, 305, 306, 307, 308, 309, 310, 311, 312, 313, 314, 315, 266, 269, 272, 275, 278, 282, 285, 288, 294, 291, 298, 299, 280, 316, 317, 318, 319, 320, 321, 322, 323, 324, 325, 326, 327, 328, 329, 267, 270, 273, 276, 279, 283, 286, 289, 295, 292, 300, 301, 280, 330, 331, 332, 333, 334, 335, 336, 337, 338, 339, 340, 341, 342, 343, 344, 347, 350, 353, 356, 360, 363, 366, 372, 369, 375, 376, 359, 381, 382, 383, 384, 385, 386, 387, 388, 389, 390, 391, 392, 393, 394, 345, 348, 351, 354, 357, 361, 364, 367, 373, 370, 377, 378, 359, 395, 396, 397, 398, 399, 400, 401, 402, 403, 404, 405, 406, 407, 408, 346, 349, 352, 355, 358, 362, 365, 368, 374, 371, 379, 380, 359, 409, 410, 411, 412, 413, 414, 415, 416, 417, 418, 419, 420, 421, 422, 423, 426, 429, 432, 435, 439, 442, 445, 451, 448, 454, 455, 438, 460, 461, 462, 463, 464, 465, 466, 467, 468, 469, 470, 471, 472, 473, 424, 427, 430, 433, 436, 440, 443, 446, 452, 449, 456, 457, 438, 474, 475, 476, 477, 478, 479, 480, 481, 482, 483, 484, 485, 486, 487, 425, 428, 431, 434, 437, 441, 444, 447, 453, 450, 458, 459, 438, 488, 489, 490, 491, 492, 493, 494, 495, 496, 497, 498, 499, 500, 501, 502, 503, 504, 505, 506, 508, 509, 510, 512, 511, 513, 514, 507, 515, 516, 517, 518, 519, 521, 522, 523, 525, 524, 526, 527, 520, 528, 529, 530, 531, 532, 534, 535, 536, 538, 537, 539, 540, 533, 541, 542, 543, 544, 545, 547, 548, 549, 551, 550, 552, 553, 546, 554, 555, 556, 557, 558, 559, 560]

/-- The twelve keys emitted by calculateTimeFeatures, in order. -/
def timeFeatureNames : List String :=
  ["mean()", "std()", "mad()", "max()", "min()", "energy()", "iqr()", "entropy()",
   "arCoeff()1", "arCoeff()2", "arCoeff()3", "arCoeff()4"]

/-- The twelve keys emitted by calculateFrequencyFeatures, in order. -/
def freqFeatureNames : List String :=
  ["mean()", "std()", "mad()", "max()", "min()", "energy()", "iqr()", "entropy()",
   "meanFreq()", "maxInds", "skewness()", "kurtosis()"]

/-- The fourteen keys emitted by calculateBandsEnergy, in order. -/
def freqBandNames : List String :=
  ["bandsEnergy()-1,8", "bandsEnergy()-9,16", "bandsEnergy()-17,24", "bandsEnergy()-25,32",
   "bandsEnergy()-33,40", "bandsEnergy()-41,48", "bandsEnergy()-49,56", "bandsEnergy()-57,64",
   "bandsEnergy()-1,16", "bandsEnergy()-17,32", "bandsEnergy()-33,48", "bandsEnergy()-49,64",
   "bandsEnergy()-1,24", "bandsEnergy()-25,48"]

noncomputable section

/-- A 128-sample window of all-zero readings sampled every 20 ms: a valid
sensor window (timestamps strictly increasing) on which every conditioned
series is identically zero. -/
def zeroReadings : List SensorReading :=
  (List.range 128).map fun i => ⟨0, 0, 0, 20 * (i : ℝ)⟩

/-- The extractor input produced by the pipeline on the all-zero window for
both sensors. -/
def psZero : ProcessedSignals :=
  combineProcessedSignals (processSensorData 128 zeroReadings 20)
    (processSensorData 128 zeroReadings 20)

/-- A two-sample input for the jerk-spectrum claim. -/
def readings2 : List SensorReading := [⟨1, 1, 1, 0⟩, ⟨0, 0, 0, 1000⟩]

/-- A concrete extractor input on which the first gravity sample differs from
the mean gravity vector: tGravityAcc = ([1,1], [0,2], [0,0]) has first sample
(1,0,0) but mean (1,1,0); tBodyAcc has mean (1,0,0). -/
def psC7 : ProcessedSignals :=
  ⟨⟨[1, 1], [0, 0], [0, 0]⟩, ⟨[1, 1], [0, 2], [0, 0]⟩, ⟨[1], [1], [1]⟩, ⟨[1], [1], [1]⟩,
   ⟨[1], [1], [1]⟩, [1], [1], [1], [1], [1],
   ⟨[], [], []⟩, ⟨[], [], []⟩, ⟨[], [], []⟩, [], [], [], []⟩

/-- A series is non-constant when it has two distinct members. -/
def nonConstant (l : List ℝ) : Prop := ∃ a ∈ l, ∃ b ∈ l, a ≠ b

end

theorem keys_timeGroupFeatures (name : String) (g : Axes3) :
    (timeGroupFeatures name g).map Prod.fst =
      (timeFeatureNames.map fun f => name ++ "-" ++ f ++ "-" ++ "x")
      ++ (timeFeatureNames.map fun f => name ++ "-" ++ f ++ "-" ++ "y")
      ++ (timeFeatureNames.map fun f => name ++ "-" ++ f ++ "-" ++ "z")
      ++ [name ++ "-sma()"]
      ++ [name ++ "-correlation()-x,y", name ++ "-correlation()-x,z",
          name ++ "-correlation()-y,z"] := rfl

theorem keys_magGroupFeatures (name : String) (d : List ℝ) :
    (magGroupFeatures name d).map Prod.fst =
      (timeFeatureNames.map fun f => name ++ "-" ++ f) ++ [name ++ "-sma()"] := rfl

theorem keys_freqGroupFeatures (name : String) (g : Axes3) :
    (freqGroupFeatures name g).map Prod.fst =
      ((freqFeatureNames.map fun f => name ++ "-" ++ f ++ "-" ++ "x")
        ++ [name ++ "-sma()"]
        ++ (freqBandNames.map fun f => name ++ "-" ++ f ++ "-" ++ "x"))
      ++ ((freqFeatureNames.map fun f => name ++ "-" ++ f ++ "-" ++ "y")
        ++ [name ++ "-sma()"]
        ++ (freqBandNames.map fun f => name ++ "-" ++ f ++ "-" ++ "y"))
      ++ ((freqFeatureNames.map fun f => name ++ "-" ++ f ++ "-" ++ "z")
        ++ [name ++ "-sma()"]
        ++ (freqBandNames.map fun f => name ++ "-" ++ f ++ "-" ++ "z")) := rfl

theorem keys_freqMagGroupFeatures (name : String) (d : List ℝ) :
    (freqMagGroupFeatures name d).map Prod.fst =
      (freqFeatureNames.map fun f => name ++ "-" ++ f) ++ [name ++ "-sma()"] := rfl

theorem keys_extractAngleFeatures (ps : ProcessedSignals) :
    (extractAngleFeatures ps).map Prod.fst =
      ["angle(tBodyAccMean,gravity)", "angle(tBodyAccJerkMean,gravityMean)",
       "angle(tBodyGyroMean,gravityMean)", "angle(tBodyGyroJerkMean,gravityMean)",
       "angle(x,gravityMean)", "angle(y,gravityMean)", "angle(z,gravityMean)"] := rfl

theorem keysOf_eq_genKeys (ps : ProcessedSignals) : keysOf ps = genKeys := by
  show (extractFeatures ps ++ extractAngleFeatures ps).map Prod.fst = genKeys
  simp only [extractFeatures, List.map_append, keys_timeGroupFeatures, keys_magGroupFeatures,
    keys_freqGroupFeatures, keys_freqMagGroupFeatures, keys_extractAngleFeatures]
  decide

theorem getD_mem_of_lt {α : Type} (l : List α) (i : ℕ) (d : α) (h : i < l.length) :
    l.getD i d ∈ l := by
  rw [List.getD_eq_getElem?_getD, List.getElem?_eq_getElem h]
  exact List.getElem_mem h


theorem getD_zero_of_forall (l : List ℝ) (h : ∀ x ∈ l, x = 0) : ∀ i : ℕ, l.getD i 0 = 0 := by
  induction l with
  | nil => intro i; rfl
  | cons a t ih =>
    intro i
    cases i with
    | zero => exact h a (List.mem_cons_self a t)
    | succ n => exact ih (fun x hx => h x (List.mem_cons_of_mem a hx)) n

theorem medianFilter_replicate_zero (n : ℕ) :
    medianFilter (List.replicate n (0:ℝ)) = List.replicate n 0 := by
  unfold medianFilter
  have h : ∀ i ∈ List.range (List.replicate n (0:ℝ)).length,
      (let lo := i - 1
       let hi := min (List.replicate n (0:ℝ)).length (i + 2)
       let w := List.insertionSort (· ≤ ·) (((List.replicate n (0:ℝ)).drop lo).take (hi - lo))
       w.getD (w.length / 2) 0) = (0:ℝ) := by
    intro i _
    apply getD_zero_of_forall
    intro x hx
    have hx2 : x ∈ ((List.replicate n (0:ℝ)).drop (i - 1)).take
        (min (List.replicate n (0:ℝ)).length (i + 2) - (i - 1)) :=
      (List.perm_insertionSort _ _).mem_iff.mp hx
    exact List.eq_of_mem_replicate (List.mem_of_mem_drop (List.mem_of_mem_take hx2))
  rw [List.map_congr_left h, List.map_const', List.length_range, List.length_replicate]

theorem bwGo_replicate_zero (b0 b1 b2 a1 a2 : ℝ) :
    ∀ n, bwGo b0 b1 b2 a1 a2 (List.replicate n 0) 0 0 0 0 = List.replicate n 0 := by
  intro n
  induction n with
  | zero => rfl
  | succ m ih =>
    rw [List.replicate_succ]
    simp only [bwGo, mul_zero, add_zero, sub_zero, zero_add]
    rw [ih]

theorem butterworthFilter_replicate_zero (c : ℝ) (n : ℕ) :
    butterworthFilter (List.replicate n 0) c = List.replicate n 0 := by
  unfold butterworthFilter
  exact bwGo_replicate_zero _ _ _ _ _ n

theorem zipWith_sub_replicate_zero (n : ℕ) :
    List.zipWith (fun v g => v - g) (List.replicate n (0:ℝ)) (List.replicate n 0)
      = List.replicate n 0 := by
  rw [List.zipWith_replicate]
  simp

theorem processAxis_body_replicate_zero (ts : List ℝ) (c : ℝ) :
    (processAxis (List.replicate 128 (0:ℝ)) ts c).bodyComponent = List.replicate 128 0 := by
  unfold processAxis
  simp only [medianFilter_replicate_zero, butterworthFilter_replicate_zero,
    zipWith_sub_replicate_zero]

theorem zeroReadings_x : zeroReadings.map (·.x) = List.replicate 128 0 := rfl

theorem zeroReadings_y : zeroReadings.map (·.y) = List.replicate 128 0 := rfl

theorem psZero_body_x : psZero.tBodyAcc.x = List.replicate 128 0 := by
  have h : psZero.tBodyAcc.x
      = (processAxis (zeroReadings.map (·.x)) (zeroReadings.map (·.timestamp)) 20).bodyComponent :=
    rfl
  rw [h, zeroReadings_x, processAxis_body_replicate_zero]

theorem psZero_body_y : psZero.tBodyAcc.y = List.replicate 128 0 := by
  have h : psZero.tBodyAcc.y
      = (processAxis (zeroReadings.map (·.y)) (zeroReadings.map (·.timestamp)) 20).bodyComponent :=
    rfl
  rw [h, zeroReadings_y, processAxis_body_replicate_zero]

theorem calculateCorrelation_replicate_zero :
    calculateCorrelation (List.replicate 128 (0:ℝ)) (List.replicate 128 0) = none := by
  unfold calculateCorrelation
  rw [List.sum_replicate, List.length_replicate]
  norm_num [jsDiv, List.zipWith_replicate, List.map_replicate, List.sum_replicate,
    Real.sqrt_zero]

theorem lkCorr_tBodyAcc (g : Axes3) :
    List.lookup "tBodyAcc-correlation()-x,y" (timeGroupFeatures "tBodyAcc" g).reverse
      = some (calculateCorrelation g.x g.y) := rfl

theorem lkCorr_tGravityAcc (g : Axes3) :
    List.lookup "tBodyAcc-correlation()-x,y" (timeGroupFeatures "tGravityAcc" g).reverse
      = none := rfl

theorem lkCorr_tBodyAccJerk (g : Axes3) :
    List.lookup "tBodyAcc-correlation()-x,y" (timeGroupFeatures "tBodyAccJerk" g).reverse
      = none := rfl

theorem lkCorr_tBodyGyro (g : Axes3) :
    List.lookup "tBodyAcc-correlation()-x,y" (timeGroupFeatures "tBodyGyro" g).reverse
      = none := rfl

theorem lkCorr_tBodyGyroJerk (g : Axes3) :
    List.lookup "tBodyAcc-correlation()-x,y" (timeGroupFeatures "tBodyGyroJerk" g).reverse
      = none := rfl

theorem lkCorr_tBodyAccMag (d : List ℝ) :
    List.lookup "tBodyAcc-correlation()-x,y" (magGroupFeatures "tBodyAccMag" d).reverse
      = none := rfl

theorem lkCorr_tGravityAccMag (d : List ℝ) :
    List.lookup "tBodyAcc-correlation()-x,y" (magGroupFeatures "tGravityAccMag" d).reverse
      = none := rfl

theorem lkCorr_tBodyAccJerkMag (d : List ℝ) :
    List.lookup "tBodyAcc-correlation()-x,y" (magGroupFeatures "tBodyAccJerkMag" d).reverse
      = none := rfl

theorem lkCorr_tBodyGyroMag (d : List ℝ) :
    List.lookup "tBodyAcc-correlation()-x,y" (magGroupFeatures "tBodyGyroMag" d).reverse
      = none := rfl

theorem lkCorr_tBodyGyroJerkMag (d : List ℝ) :
    List.lookup "tBodyAcc-correlation()-x,y" (magGroupFeatures "tBodyGyroJerkMag" d).reverse
      = none := rfl

theorem lkCorr_fBodyAcc (g : Axes3) :
    List.lookup "tBodyAcc-correlation()-x,y" (freqGroupFeatures "fBodyAcc" g).reverse
      = none := rfl

theorem lkCorr_fBodyAccJerk (g : Axes3) :
    List.lookup "tBodyAcc-correlation()-x,y" (freqGroupFeatures "fBodyAccJerk" g).reverse
      = none := rfl

theorem lkCorr_fBodyGyro (g : Axes3) :
    List.lookup "tBodyAcc-correlation()-x,y" (freqGroupFeatures "fBodyGyro" g).reverse
      = none := rfl

theorem lkCorr_fBodyAccMag (d : List ℝ) :
    List.lookup "tBodyAcc-correlation()-x,y" (freqMagGroupFeatures "fBodyAccMag" d).reverse
      = none := rfl

theorem lkCorr_fBodyBodyAccJerkMag (d : List ℝ) :
    List.lookup "tBodyAcc-correlation()-x,y"
      (freqMagGroupFeatures "fBodyBodyAccJerkMag" d).reverse = none := rfl

theorem lkCorr_fBodyBodyGyroMag (d : List ℝ) :
    List.lookup "tBodyAcc-correlation()-x,y"
      (freqMagGroupFeatures "fBodyBodyGyroMag" d).reverse = none := rfl

theorem lkCorr_fBodyBodyGyroJerkMag (d : List ℝ) :
    List.lookup "tBodyAcc-correlation()-x,y"
      (freqMagGroupFeatures "fBodyBodyGyroJerkMag" d).reverse = none := rfl

theorem lkCorr_angles (ps : ProcessedSignals) :
    List.lookup "tBodyAcc-correlation()-x,y" (extractAngleFeatures ps).reverse = none := rfl

theorem jsGet_corr_xy (ps : ProcessedSignals) :
    jsGet (extractFeatures ps ++ extractAngleFeatures ps) "tBodyAcc-correlation()-x,y"
      = some (calculateCorrelation ps.tBodyAcc.x ps.tBodyAcc.y) := by
  unfold jsGet extractFeatures
  simp only [List.reverse_append, List.lookup_append,
    lkCorr_tBodyAcc, lkCorr_tGravityAcc, lkCorr_tBodyAccJerk, lkCorr_tBodyGyro,
    lkCorr_tBodyGyroJerk, lkCorr_tBodyAccMag, lkCorr_tGravityAccMag, lkCorr_tBodyAccJerkMag,
    lkCorr_tBodyGyroMag, lkCorr_tBodyGyroJerkMag, lkCorr_fBodyAcc, lkCorr_fBodyAccJerk,
    lkCorr_fBodyGyro, lkCorr_fBodyAccMag, lkCorr_fBodyBodyAccJerkMag, lkCorr_fBodyBodyGyroMag,
    lkCorr_fBodyBodyGyroJerkMag, lkCorr_angles, Option.or_none, Option.none_or]

/-- Claim C1 counterexample: on the valid all-zero 128-sample window (both
sensors, timestamps every 20 ms), the combined feature object binds the
canonical key tBodyAcc-correlation()-x,y to a non-finite value: the body
series are identically zero, so calculateCorrelation evaluates 0/0 = NaN.
Hence not every value of the feature mapping is a finite number. -/
theorem extract_zero_window_nan :
    jsGet (processSignalWindow zeroReadings zeroReadings) "tBodyAcc-correlation()-x,y"
      = some none := by
  have h0 : processSignalWindow zeroReadings zeroReadings
      = extractFeatures psZero ++ extractAngleFeatures psZero := rfl
  rw [h0, jsGet_corr_xy, psZero_body_x, psZero_body_y, calculateCorrelation_replicate_zero]

/-- Claim C2 evaluation: windowing 256 samples with windowSize = 128 and
slideSize = 64 yields only 2 windows, starting at sample indices 0 and 64.
The loop guard i < readings.length - windowSize is strict, so the third full
window starting at index 128 (required by the spec scenario) is never
emitted. -/
theorem windowing_256_two_windows :
    (processWindows 128 (List.range 256)).length = 2
    ∧ processWindows 128 (List.range 256)
        = [((List.range 256).drop 0).take 128, ((List.range 256).drop 64).take 128]
    ∧ ¬(processWindows 128 (List.range 256)).length = 3 :=
  ⟨by decide, by decide, by decide⟩

theorem bwGo_length (b0 b1 b2 a1 a2 : ℝ) :
    ∀ (l : List ℝ) (x1 x2 y1 y2 : ℝ),
      (bwGo b0 b1 b2 a1 a2 l x1 x2 y1 y2).length = l.length := by
  intro l
  induction l with
  | nil => intro x1 x2 y1 y2; rfl
  | cons a t ih => intro x1 x2 y1 y2; simp only [bwGo, List.length_cons, ih]

theorem butterworthFilter_length (l : List ℝ) (c : ℝ) :
    (butterworthFilter l c).length = l.length := by
  unfold butterworthFilter
  exact bwGo_length _ _ _ _ _ l 0 0 0 0

theorem medianFilter_length (l : List ℝ) : (medianFilter l).length = l.length := by
  simp [medianFilter]

theorem calculateJerk_length (d ts : List ℝ) :
    (calculateJerk d ts).length = d.length - 1 := by
  simp [calculateJerk]

theorem calculateMagnitude_length (x y z : List ℝ) :
    (calculateMagnitude x y z).length = x.length := by
  simp [calculateMagnitude]

theorem processAxis_body_length (d ts : List ℝ) (c : ℝ) :
    (processAxis d ts c).bodyComponent.length = d.length := by
  unfold processAxis
  simp [List.length_zipWith, butterworthFilter_length, medianFilter_length]

theorem processAxis_gravity_length (d ts : List ℝ) (c : ℝ) :
    (processAxis d ts c).gravityComponent.length = d.length := by
  unfold processAxis
  simp [butterworthFilter_length, medianFilter_length]

theorem processAxis_jerk_length (d ts : List ℝ) (c : ℝ) :
    (processAxis d ts c).jerk.length = d.length - 1 := by
  unfold processAxis
  simp [calculateJerk_length, List.length_zipWith, butterworthFilter_length, medianFilter_length]

theorem dftInterleaved_length (l : List ℝ) :
    (dftInterleaved l).length = 2 * nextPow2 l.length := by
  unfold dftInterleaved
  rw [List.length_flatMap]
  have h : (List.length ∘ fun k => [dftRe l (nextPow2 l.length) k, dftIm l (nextPow2 l.length) k])
      = fun _ => 2 := rfl
  rw [h, List.map_const', List.sum_replicate, List.length_range, smul_eq_mul, mul_comm]

/-- Claim C3: processSensorData stores the body spectrum as the bodyJerk
spectrum - structurally, frequency.bodyJerk always equals frequency.body - so
the returned bodyJerk spectrum is not the DFT of the jerk series.  On the
two-sample input readings2 the stored array has 2*fftSize(2) = 4 entries
while the DFT of the length-1 jerk series has 2*fftSize(1) = 2 entries. -/
theorem freq_bodyJerk_is_body_spectrum :
    (∀ (w : ℕ) (readings : List SensorReading) (c : ℝ),
        (processSensorData w readings c).frequency.bodyJerk
          = (processSensorData w readings c).frequency.body)
    ∧ (processSensorData 128 readings2 20).frequency.bodyJerk.x
        ≠ dftInterleaved (processSensorData 128 readings2 20).time.bodyJerk.x := by
  constructor
  · intro w readings c; rfl
  · intro hEq
    have h1 : (processSensorData 128 readings2 20).frequency.bodyJerk.x
        = dftInterleaved
            ((processAxis (readings2.map (·.x)) (readings2.map (·.timestamp)) 20).bodyComponent) :=
      rfl
    have h2 : (processSensorData 128 readings2 20).time.bodyJerk.x
        = (processAxis (readings2.map (·.x)) (readings2.map (·.timestamp)) 20).jerk := rfl
    have hlen := congrArg List.length hEq
    rw [h1, h2, dftInterleaved_length, dftInterleaved_length, processAxis_body_length,
      processAxis_jerk_length, List.length_map] at hlen
    have hr2 : readings2.length = 2 := rfl
    rw [hr2] at hlen
    have hc1 : Nat.clog 2 1 = 0 := Nat.clog_of_right_le_one (le_refl 1) 2
    have hc2 : Nat.clog 2 2 = 1 := by
      rw [Nat.clog_of_two_le (le_refl 2) (le_refl 2)]
      norm_num [hc1]
    rw [show (2:ℕ) - 1 = 1 from rfl] at hlen
    simp only [nextPow2] at hlen
    norm_num [hc1, hc2] at hlen

theorem getD_map_range {β : Type} (f : ℕ → β) (n i : ℕ) (d : β) (h : i < n) :
    ((List.range n).map f).getD i d = f i := by
  rw [List.getD_eq_getElem?_getD, List.getElem?_map, List.getElem?_range h]
  rfl

/-- Claim C5 (amended): calculateJerk returns a series of length n-1 with
jerk[i] = (data[i+1]-data[i]) / ((t[i+1]-t[i])/1000); when a consecutive
timestamp delta is zero the code performs the division anyway, and the entry
is a non-finite IEEE value (NaN or +-Infinity) - it does not fail with a
DegenerateTimestamp error, which does not exist in the source. -/
theorem calculateJerk_length_formula (data ts : List ℝ) (i : ℕ) (hi : i + 1 < data.length) :
    (calculateJerk data ts).length = data.length - 1
    ∧ (ts.getD (i + 1) 0 - ts.getD i 0 ≠ 0 →
        (jsCalculateJerk data ts).getD i none
          = some ((data.getD (i + 1) 0 - data.getD i 0)
              / ((ts.getD (i + 1) 0 - ts.getD i 0) / 1000)))
    ∧ (ts.getD (i + 1) 0 - ts.getD i 0 = 0 →
        (jsCalculateJerk data ts).getD i none = none) := by
  have hi' : i < data.length - 1 := by omega
  refine ⟨by simp [calculateJerk], fun hne => ?_, fun hz => ?_⟩
  · unfold jsCalculateJerk
    rw [getD_map_range _ _ _ _ hi']
    unfold jsDiv
    rw [if_neg (div_ne_zero hne (by norm_num))]
  · unfold jsCalculateJerk
    rw [getD_map_range _ _ _ _ hi']
    unfold jsDiv
    rw [hz]
    norm_num

/-- Claim C5 witness: at the concrete window [0, 1] with timestamps [0, 20],
the jerk series has length 1 (the hypothesis 0 + 1 < 2 is discharged at the
concrete input). -/
theorem calculateJerk_length_formula_witness :
    (calculateJerk [0, 1] [0, 20]).length = 1 := by
  have h := (calculateJerk_length_formula [0, 1] [0, 20] 0 (by norm_num)).1
  simpa using h

/-- Claim C5 counterexample: on samples [0, 1] with the degenerate timestamps
[5, 5], the source code does not fail: it returns a one-element list whose
entry is the non-finite result of dividing by the zero time delta, whereas
the spec's jerk fails with DegenerateTimestamp. -/
theorem calculateJerk_no_degenerate_error :
    jsCalculateJerk [0, 1] [5, 5] = [none]
    ∧ calculateJerkSpec [0, 1] [5, 5] = Except.error SPError.degenerateTimestamp := by
  constructor
  · unfold jsCalculateJerk jsDiv
    rw [show List.range (([0, 1] : List ℝ).length - 1) = [0] from rfl]
    simp only [List.map_cons, List.map_nil]
    norm_num
  · unfold calculateJerkSpec
    rw [if_pos]
    simp only [List.any_eq_true, decide_eq_true_eq]
    refine ⟨0, ?_, ?_⟩
    · norm_num
    · norm_num

/-- Claim C6 (amended): whenever either operand of calculateAngle has zero
magnitude, the division acos(dot/(m1*m2)) has a zero divisor and the JS
result is NaN (none) - the ZeroVector case is not handled and no sentinel 0
is substituted. -/
theorem calculateAngle_zero_vector (v1 v2 : List ℝ)
    (h : Real.sqrt ((v1.map fun v => v ^ 2).sum) = 0
       ∨ Real.sqrt ((v2.map fun v => v ^ 2).sum) = 0) :
    calculateAngle v1 v2 = none := by
  unfold calculateAngle
  rcases h with h | h
  · rw [if_pos (by rw [h, zero_mul])]
  · rw [if_pos (by rw [h, mul_zero])]

/-- Claim C6 witness: the zero vector against the y unit vector. -/
theorem calculateAngle_zero_vector_witness : calculateAngle [0, 0, 0] [0, 1, 0] = none :=
  calculateAngle_zero_vector _ _ (Or.inl (by norm_num [Real.sqrt_zero]))

/-- Claim C6 counterexample: for the zero vector against the x unit vector
the angle feature is NaN (none), not the sentinel 0 the claim asserts. -/
theorem calculateAngle_zero_vector_not_sentinel :
    calculateAngle [0, 0, 0] [1, 0, 0] = none
    ∧ calculateAngle [0, 0, 0] [1, 0, 0] ≠ some 0 := by
  have hm : Real.sqrt ((([0, 0, 0] : List ℝ).map fun v => v ^ 2).sum) = 0 := by
    norm_num [Real.sqrt_zero]
  have h : calculateAngle [0, 0, 0] [1, 0, 0] = none := by
    unfold calculateAngle
    rw [if_pos (by rw [hm, zero_mul])]
  exact ⟨h, by rw [h]; simp⟩

/-- Claim C7 (amended): in extractAngleFeatures, the gravity operand of
angle(tBodyAccMean,gravity) is the first gravity sample of the window, while
the other six angle features use the mean gravity vector. -/
theorem extractAngleFeatures_gravity_operands (ps : ProcessedSignals) :
    jsGet (extractAngleFeatures ps) "angle(tBodyAccMean,gravity)"
        = some (calculateAngle (axisMeans ps.tBodyAcc) (gravityFirst ps))
    ∧ jsGet (extractAngleFeatures ps) "angle(tBodyAccJerkMean,gravityMean)"
        = some (calculateAngle (axisMeans ps.tBodyAccJerk) (gravityMeanVec ps))
    ∧ jsGet (extractAngleFeatures ps) "angle(tBodyGyroMean,gravityMean)"
        = some (calculateAngle (axisMeans ps.tBodyGyro) (gravityMeanVec ps))
    ∧ jsGet (extractAngleFeatures ps) "angle(tBodyGyroJerkMean,gravityMean)"
        = some (calculateAngle (axisMeans ps.tBodyGyroJerk) (gravityMeanVec ps))
    ∧ jsGet (extractAngleFeatures ps) "angle(x,gravityMean)"
        = some (calculateAngle [1, 0, 0] (gravityMeanVec ps))
    ∧ jsGet (extractAngleFeatures ps) "angle(y,gravityMean)"
        = some (calculateAngle [0, 1, 0] (gravityMeanVec ps))
    ∧ jsGet (extractAngleFeatures ps) "angle(z,gravityMean)"
        = some (calculateAngle [0, 0, 1] (gravityMeanVec ps)) :=
  ⟨rfl, rfl, rfl, rfl, rfl, rfl, rfl⟩

/-- Claim C7 counterexample: on psC7 the feature angle(tBodyAccMean,gravity)
computed by the source (from the first gravity sample (1,0,0)) is 0, whereas
the angle against the mean gravity vector (1,1,0) is arccos(1/sqrt 2) > 0;
the gravity operand of this feature is therefore not the per-window mean. -/
theorem angle_tBodyAccMean_uses_first_sample :
    jsGet (extractAngleFeatures psC7) "angle(tBodyAccMean,gravity)"
      ≠ some (calculateAngle (axisMeans psC7.tBodyAcc) (gravityMeanVec psC7)) := by
  have hMean : axisMeans psC7.tBodyAcc = [1, 0, 0] := by
    show axisMeans ⟨[1, 1], [0, 0], [0, 0]⟩ = [1, 0, 0]
    norm_num [axisMeans]
  have hFirst : gravityFirst psC7 = [1, 0, 0] := rfl
  have hGMean : gravityMeanVec psC7 = [1, 1, 0] := by
    show gravityMeanVec psC7 = [1, 1, 0]
    norm_num [gravityMeanVec, psC7]
  have hL : calculateAngle [1, 0, 0] [1, 0, 0] = some 0 := by
    unfold calculateAngle
    norm_num [Real.sqrt_one, Real.arccos_one]
  have hsqrt2 : (1:ℝ) < Real.sqrt 2 := by
    have h2 : Real.sqrt 1 < Real.sqrt 2 := Real.sqrt_lt_sqrt (by norm_num) (by norm_num)
    rwa [Real.sqrt_one] at h2
  have hR : calculateAngle [1, 0, 0] [1, 1, 0] = some (Real.arccos (1 / Real.sqrt 2)) := by
    unfold calculateAngle
    have hs : ((([1, 1, 0] : List ℝ).map fun v => v ^ 2).sum) = 2 := by norm_num
    norm_num [hs, Real.sqrt_one]
  have hpos : 0 < Real.arccos (1 / Real.sqrt 2) :=
    Real.arccos_pos.mpr ((div_lt_one (lt_trans one_pos hsqrt2)).mpr hsqrt2)
  intro heq
  rw [show jsGet (extractAngleFeatures psC7) "angle(tBodyAccMean,gravity)"
      = some (calculateAngle (axisMeans psC7.tBodyAcc) (gravityFirst psC7)) from rfl,
    hMean, hFirst, hGMean, hL, hR] at heq
  exact absurd (Option.some.inj (Option.some.inj heq)) (ne_of_lt hpos)

/-- Claim C10: the overlapping windows computed inside processSensorData are
dead code - the output is identical for any windowing parameter - and for a
readings sequence of length n, every time-domain body and gravity series
(including magnitudes) has length n while every jerk series has length
n - 1. -/
theorem processSensorData_windows_unused (w w' : ℕ) (readings : List SensorReading) (c : ℝ)
    (_h : 2 ≤ readings.length) :
    ((processSensorData w readings c).time.body.x.length = readings.length
      ∧ (processSensorData w readings c).time.body.y.length = readings.length
      ∧ (processSensorData w readings c).time.body.z.length = readings.length
      ∧ (processSensorData w readings c).time.body.magnitude.length = readings.length)
    ∧ ((processSensorData w readings c).time.gravity.x.length = readings.length
      ∧ (processSensorData w readings c).time.gravity.y.length = readings.length
      ∧ (processSensorData w readings c).time.gravity.z.length = readings.length
      ∧ (processSensorData w readings c).time.gravity.magnitude.length = readings.length)
    ∧ ((processSensorData w readings c).time.bodyJerk.x.length = readings.length - 1
      ∧ (processSensorData w readings c).time.bodyJerk.y.length = readings.length - 1
      ∧ (processSensorData w readings c).time.bodyJerk.z.length = readings.length - 1
      ∧ (processSensorData w readings c).time.bodyJerk.magnitude.length = readings.length - 1)
    ∧ processSensorData w readings c = processSensorData w' readings c := by
  refine ⟨⟨?_, ?_, ?_, ?_⟩, ⟨?_, ?_, ?_, ?_⟩, ⟨?_, ?_, ?_, ?_⟩, rfl⟩
  · rw [show (processSensorData w readings c).time.body.x
        = (processAxis (readings.map (·.x)) (readings.map (·.timestamp)) c).bodyComponent from rfl,
      processAxis_body_length, List.length_map]
  · rw [show (processSensorData w readings c).time.body.y
        = (processAxis (readings.map (·.y)) (readings.map (·.timestamp)) c).bodyComponent from rfl,
      processAxis_body_length, List.length_map]
  · rw [show (processSensorData w readings c).time.body.z
        = (processAxis (readings.map (·.z)) (readings.map (·.timestamp)) c).bodyComponent from rfl,
      processAxis_body_length, List.length_map]
  · rw [show (processSensorData w readings c).time.body.magnitude
        = calculateMagnitude
            (processAxis (readings.map (·.x)) (readings.map (·.timestamp)) c).bodyComponent
            (processAxis (readings.map (·.y)) (readings.map (·.timestamp)) c).bodyComponent
            (processAxis (readings.map (·.z)) (readings.map (·.timestamp)) c).bodyComponent
        from rfl,
      calculateMagnitude_length, processAxis_body_length, List.length_map]
  · rw [show (processSensorData w readings c).time.gravity.x
        = (processAxis (readings.map (·.x)) (readings.map (·.timestamp)) c).gravityComponent
        from rfl,
      processAxis_gravity_length, List.length_map]
  · rw [show (processSensorData w readings c).time.gravity.y
        = (processAxis (readings.map (·.y)) (readings.map (·.timestamp)) c).gravityComponent
        from rfl,
      processAxis_gravity_length, List.length_map]
  · rw [show (processSensorData w readings c).time.gravity.z
        = (processAxis (readings.map (·.z)) (readings.map (·.timestamp)) c).gravityComponent
        from rfl,
      processAxis_gravity_length, List.length_map]
  · rw [show (processSensorData w readings c).time.gravity.magnitude
        = calculateMagnitude
            (processAxis (readings.map (·.x)) (readings.map (·.timestamp)) c).gravityComponent
            (processAxis (readings.map (·.y)) (readings.map (·.timestamp)) c).gravityComponent
            (processAxis (readings.map (·.z)) (readings.map (·.timestamp)) c).gravityComponent
        from rfl,
      calculateMagnitude_length, processAxis_gravity_length, List.length_map]
  · rw [show (processSensorData w readings c).time.bodyJerk.x
        = (processAxis (readings.map (·.x)) (readings.map (·.timestamp)) c).jerk from rfl,
      processAxis_jerk_length, List.length_map]
  · rw [show (processSensorData w readings c).time.bodyJerk.y
        = (processAxis (readings.map (·.y)) (readings.map (·.timestamp)) c).jerk from rfl,
      processAxis_jerk_length, List.length_map]
  · rw [show (processSensorData w readings c).time.bodyJerk.z
        = (processAxis (readings.map (·.z)) (readings.map (·.timestamp)) c).jerk from rfl,
      processAxis_jerk_length, List.length_map]
  · rw [show (processSensorData w readings c).time.bodyJerk.magnitude
        = calculateMagnitude
            (processAxis (readings.map (·.x)) (readings.map (·.timestamp)) c).jerk
            (processAxis (readings.map (·.y)) (readings.map (·.timestamp)) c).jerk
            (processAxis (readings.map (·.z)) (readings.map (·.timestamp)) c).jerk
        from rfl,
      calculateMagnitude_length, processAxis_jerk_length, List.length_map]

/-- Claim C10 witness: on a concrete two-sample input (and two different
window parameters) the body series keeps length 2. -/
theorem processSensorData_windows_unused_witness :
    (processSensorData 128 [⟨0, 0, 0, 0⟩, ⟨1, 1, 1, 20⟩] 20).time.body.x.length = 2 := by
  have h := (processSensorData_windows_unused 128 64 [⟨0, 0, 0, 0⟩, ⟨1, 1, 1, 20⟩] 20
    (by norm_num)).1.1
  simpa using h

theorem foldl_min_le (l : List ℝ) : ∀ b : ℝ, l.foldl min b ≤ b := by
  induction l with
  | nil => intro b; simp
  | cons a t ih => intro b; exact le_trans (ih (min b a)) (min_le_left b a)

theorem foldl_min_le_mem (l : List ℝ) : ∀ (b a : ℝ), a ∈ l → l.foldl min b ≤ a := by
  induction l with
  | nil => intro b a ha; simp at ha
  | cons x t ih =>
    intro b a ha
    rcases List.mem_cons.mp ha with h | h
    · subst h; exact le_trans (foldl_min_le t (min b a)) (min_le_right b a)
    · exact ih (min b x) a h

theorem le_foldl_max (l : List ℝ) : ∀ b : ℝ, b ≤ l.foldl max b := by
  induction l with
  | nil => intro b; simp
  | cons a t ih => intro b; exact le_trans (le_max_left b a) (ih (max b a))

theorem le_foldl_max_mem (l : List ℝ) : ∀ (b a : ℝ), a ∈ l → a ≤ l.foldl max b := by
  induction l with
  | nil => intro b a ha; simp at ha
  | cons x t ih =>
    intro b a ha
    rcases List.mem_cons.mp ha with h | h
    · subst h; exact le_trans (le_max_right b a) (le_foldl_max t (max b a))
    · exact ih (max b x) a h

theorem listMinD_le (vals : List ℝ) (a : ℝ) (ha : a ∈ vals) : listMinD vals ≤ a := by
  cases vals with
  | nil => simp at ha
  | cons x t =>
    unfold listMinD
    rcases List.mem_cons.mp ha with h | h
    · subst h; exact foldl_min_le t a
    · exact foldl_min_le_mem t x a h

theorem le_listMaxD (vals : List ℝ) (a : ℝ) (ha : a ∈ vals) : a ≤ listMaxD vals := by
  cases vals with
  | nil => simp at ha
  | cons x t =>
    unfold listMaxD
    rcases List.mem_cons.mp ha with h | h
    · subst h; exact le_foldl_max t a
    · exact le_foldl_max_mem t x a h

/-- Claim C4: normalizeFeatures rescales each key of the batch independently:
a constant column (max = min) maps every row to 0; otherwise the row's value
maps to -1 + 2(v - min)/(max - min), which always lies in [-1, 1], with the
batch minimum mapping exactly to -1 and the batch maximum exactly to 1. -/
theorem normalizeFeatures_bounds (featureKeys : List String) (rows : List (String → ℝ))
    (k : String) (row : String → ℝ) (hk : k ∈ featureKeys) (hrow : row ∈ rows) :
    (listMaxD (rows.map fun r => r k) = listMinD (rows.map fun r => r k) →
      ∀ nr ∈ normalizeFeatures featureKeys rows, nr k = 0)
    ∧ (listMaxD (rows.map fun r => r k) ≠ listMinD (rows.map fun r => r k) →
      ∃ nr ∈ normalizeFeatures featureKeys rows,
        nr k = -1 + 2 * (row k - listMinD (rows.map fun r => r k))
            / (listMaxD (rows.map fun r => r k) - listMinD (rows.map fun r => r k))
        ∧ -1 ≤ nr k ∧ nr k ≤ 1
        ∧ (row k = listMinD (rows.map fun r => r k) → nr k = -1)
        ∧ (row k = listMaxD (rows.map fun r => r k) → nr k = 1)) := by
  set mn := listMinD (rows.map fun r => r k) with hmn_def
  set mx := listMaxD (rows.map fun r => r k) with hmx_def
  constructor
  · intro hconst nr hnr
    obtain ⟨r, _, rfl⟩ := List.mem_map.mp hnr
    show (if k ∈ featureKeys then _ else r k) = 0
    rw [if_pos hk, if_pos hconst]
  · intro hne
    have hmem : row k ∈ rows.map fun r => r k := List.mem_map_of_mem _ hrow
    have hlo : mn ≤ row k := listMinD_le _ _ hmem
    have hhi : row k ≤ mx := le_listMaxD _ _ hmem
    have hlt : mn < mx := lt_of_le_of_ne (le_trans hlo hhi) (Ne.symm hne)
    have hd : (0:ℝ) < mx - mn := by linarith
    refine ⟨_, List.mem_map_of_mem _ hrow, ?_⟩
    have hval : (if k ∈ featureKeys then
        if listMaxD (rows.map fun r => r k) = listMinD (rows.map fun r => r k) then (0:ℝ)
        else -1 + 2 * (row k - listMinD (rows.map fun r => r k))
            / (listMaxD (rows.map fun r => r k) - listMinD (rows.map fun r => r k))
      else row k) = -1 + 2 * (row k - mn) / (mx - mn) := by
      rw [if_pos hk]
      exact if_neg hne
    refine ⟨hval, ?_, ?_, fun h0 => ?_, fun h0 => ?_⟩
    · rw [hval]
      have : 0 ≤ 2 * (row k - mn) / (mx - mn) :=
        div_nonneg (by linarith) (le_of_lt hd)
      linarith
    · rw [hval]
      have : 2 * (row k - mn) / (mx - mn) ≤ 2 := by
        rw [div_le_iff₀ hd]; linarith
      linarith
    · rw [hval, h0, sub_self, mul_zero, zero_div, add_zero]
    · rw [hval, h0, mul_div_assoc, div_self (ne_of_gt hd), mul_one]
      norm_num

/-- Claim C4 witness: a concrete two-row batch with column values 0 and 2. -/
theorem normalizeFeatures_bounds_witness :
    ∃ nr ∈ normalizeFeatures ["a"] [fun _ => (0:ℝ), fun _ => 2], -1 ≤ nr "a" ∧ nr "a" ≤ 1 := by
  have hne : listMaxD (([fun _ => (0:ℝ), fun _ => 2]).map fun r => r "a")
      ≠ listMinD (([fun _ => (0:ℝ), fun _ => 2]).map fun r => r "a") := by
    show listMaxD [0, 2] ≠ listMinD [0, 2]
    norm_num [listMaxD, listMinD]
  obtain ⟨nr, hmem, _, hlo, hhi, _⟩ :=
    (normalizeFeatures_bounds ["a"] [fun _ => (0:ℝ), fun _ => 2] "a" (fun _ => (0:ℝ))
      (by simp) (by simp)).2 hne
  exact ⟨nr, hmem, hlo, hhi⟩

theorem sum_sq_nonneg (l : List ℝ) : 0 ≤ (l.map fun x => x ^ 2).sum := by
  apply List.sum_nonneg
  intro x hx
  obtain ⟨y, _, rfl⟩ := List.mem_map.mp hx
  exact sq_nonneg y

theorem list_cauchy_schwarz (l1 : List ℝ) : ∀ l2 : List ℝ,
    ((List.zipWith (· * ·) l1 l2).sum) ^ 2
      ≤ ((l1.map fun x => x ^ 2).sum) * ((l2.map fun x => x ^ 2).sum) := by
  induction l1 with
  | nil =>
    intro l2
    simp
  | cons a t ih =>
    intro l2
    cases l2 with
    | nil =>
      simp
    | cons b s =>
      simp only [List.zipWith_cons_cons, List.map_cons, List.sum_cons]
      have hA : 0 ≤ (t.map fun x => x ^ 2).sum := sum_sq_nonneg t
      have hB : 0 ≤ (s.map fun x => x ^ 2).sum := sum_sq_nonneg s
      have hS := ih s
      set S := (List.zipWith (· * ·) t s).sum with hS_def
      set A := (t.map fun x => x ^ 2).sum with hA_def
      set B := (s.map fun x => x ^ 2).sum with hB_def
      rcases eq_or_lt_of_le hB with hB0 | hBpos
      · have hS0 : S = 0 := by
          have h1 : S ^ 2 ≤ 0 := by rw [← hB0] at hS; simpa using hS
          have h2 : S ^ 2 = 0 := le_antisymm h1 (sq_nonneg S)
          exact pow_eq_zero_iff (n := 2) (by norm_num) |>.mp h2
        rw [hS0, ← hB0]
        nlinarith [mul_nonneg hA (sq_nonneg b)]
      · nlinarith [sq_nonneg (a * B - b * S),
          mul_nonneg (add_nonneg (sq_nonneg b) hB) (sub_nonneg.mpr hS), hBpos,
          mul_pos hBpos hBpos]

theorem sum_pos_of_mem : ∀ l : List ℝ, (∀ x ∈ l, 0 ≤ x) → ∀ x ∈ l, 0 < x → 0 < l.sum := by
  intro l
  induction l with
  | nil => intro _ x hx; simp at hx
  | cons a t ih =>
    intro h0 x hx hxpos
    rcases List.mem_cons.mp hx with h | h
    · have ht : 0 ≤ t.sum := List.sum_nonneg fun y hy => h0 y (List.mem_cons_of_mem _ hy)
      have hapos : 0 < a := h ▸ hxpos
      rw [List.sum_cons]; linarith
    · have ha : 0 ≤ a := h0 a (List.mem_cons_self a t)
      have ht : 0 < t.sum := ih (fun y hy => h0 y (List.mem_cons_of_mem a hy)) x h hxpos
      rw [List.sum_cons]; linarith

theorem nonConstant_sq_sum_pos (l : List ℝ) (m : ℝ) (h : nonConstant l) :
    0 < ((l.map fun x => (x - m) ^ 2).sum) := by
  obtain ⟨a, ha, b, hb, hab⟩ := h
  have key : ∃ c ∈ l, c ≠ m := by
    rcases eq_or_ne a m with h1 | h1
    · exact ⟨b, hb, fun hbm => hab (h1.trans hbm.symm)⟩
    · exact ⟨a, ha, h1⟩
  obtain ⟨c, hc, hcm⟩ := key
  have h0 : ∀ x ∈ l.map (fun x => (x - m) ^ 2), 0 ≤ x := by
    intro x hx
    obtain ⟨y, _, rfl⟩ := List.mem_map.mp hx
    exact sq_nonneg _
  exact sum_pos_of_mem _ h0 ((c - m) ^ 2)
    (List.mem_map_of_mem (fun x => (x - m) ^ 2) hc)
    (lt_of_le_of_ne (sq_nonneg _) (Ne.symm (pow_ne_zero 2 (sub_ne_zero.mpr hcm))))

theorem nonConstant_ne_nil (l : List ℝ) (h : nonConstant l) : l ≠ [] := by
  obtain ⟨a, ha, _⟩ := h
  exact List.ne_nil_of_mem ha

/-- Claim C9: for any two equal-length non-constant series the value computed
by calculateCorrelation is finite and lies in [-1, 1]; on [1,2,3] against
itself it is exactly 1, and against the reversed series exactly -1. -/
theorem calculateCorrelation_bounds :
    (∀ s1 s2 : List ℝ, s1.length = s2.length → nonConstant s1 → nonConstant s2 →
      ∃ r, calculateCorrelation s1 s2 = some r ∧ -1 ≤ r ∧ r ≤ 1)
    ∧ calculateCorrelation [1, 2, 3] [1, 2, 3] = some 1
    ∧ calculateCorrelation [1, 2, 3] [3, 2, 1] = some (-1) := by
  refine ⟨?_, ?_, ?_⟩
  · intro s1 s2 _hlen h1 h2
    have hl1 : ((s1.length : ℝ)) ≠ 0 :=
      Nat.cast_ne_zero.mpr (List.length_pos.mpr (nonConstant_ne_nil s1 h1)).ne'
    have hl2 : ((s2.length : ℝ)) ≠ 0 :=
      Nat.cast_ne_zero.mpr (List.length_pos.mpr (nonConstant_ne_nil s2 h2)).ne'
    unfold calculateCorrelation
    simp only [jsDiv, if_neg hl1, if_neg hl2, Option.some_bind]
    set m1 := s1.sum / (s1.length : ℝ) with hm1
    set m2 := s2.sum / (s2.length : ℝ) with hm2
    set S1 := (s1.map fun x => (x - m1) ^ 2).sum with hS1def
    set S2 := (s2.map fun x => (x - m2) ^ 2).sum with hS2def
    set num := (List.zipWith (fun a b => (a - m1) * (b - m2)) s1 s2).sum with hnumdef
    have hS1 : 0 < S1 := nonConstant_sq_sum_pos s1 m1 h1
    have hS2 : 0 < S2 := nonConstant_sq_sum_pos s2 m2 h2
    have hden : 0 < Real.sqrt (S1 * S2) := Real.sqrt_pos.mpr (mul_pos hS1 hS2)
    rw [if_neg (ne_of_gt hden)]
    refine ⟨num / Real.sqrt (S1 * S2), rfl, ?_, ?_⟩
    all_goals {
      have hcs := list_cauchy_schwarz (s1.map fun x => x - m1) (s2.map fun x => x - m2)
      simp only [List.zipWith_map_left, List.zipWith_map_right, List.map_map,
        Function.comp] at hcs
      have hcs2 : num ^ 2 ≤ S1 * S2 := hcs
      have habs : |num| ≤ Real.sqrt (S1 * S2) := by
        have h := Real.sqrt_le_sqrt hcs2
        rwa [Real.sqrt_sq_eq_abs] at h
      have hq : |num / Real.sqrt (S1 * S2)| ≤ 1 := by
        rw [abs_div, abs_of_pos hden]
        exact (div_le_one hden).mpr habs
      first
      | exact (abs_le.mp hq).1
      | exact (abs_le.mp hq).2
    }
  · unfold calculateCorrelation
    simp only [jsDiv, List.sum_cons, List.sum_nil, List.length_cons, List.length_nil]
    norm_num
  · unfold calculateCorrelation
    simp only [jsDiv, List.sum_cons, List.sum_nil, List.length_cons, List.length_nil]
    norm_num

/-- Claim C9 witness: the bound part applied at the concrete non-constant
series [1,2,3] and [2,4,8]. -/
theorem calculateCorrelation_bounds_witness :
    ∃ r, calculateCorrelation [1, 2, 3] [2, 4, 8] = some r ∧ -1 ≤ r ∧ r ≤ 1 :=
  calculateCorrelation_bounds.1 [1, 2, 3] [2, 4, 8] (by norm_num)
    ⟨1, by norm_num, 2, by norm_num, by norm_num⟩
    ⟨2, by norm_num, 4, by norm_num, by norm_num⟩


/-- The canonical feature list from index.tsx has 561 entries. -/
theorem feature_list_length : feature_list.length = 561 := by decide

/-- The emission-order key list of the extractor has 567 entries (duplicates
come from the later-overwritten correlation keys). -/
theorem genKeys_length : genKeys.length = 567 := by decide

/-- Every emitted key is some entry of the canonical list, read off through the
precomputed index list c1permB. -/
theorem genKeys_eq_permB :
    genKeys = c1permB.map fun i => feature_list.getD i "" := by decide

/-- Every canonical key is some emitted key, read off through the precomputed
index list c1permA. -/
theorem feature_list_eq_permA :
    feature_list = c1permA.map fun i => genKeys.getD i "" := by decide

/-- All indices in c1permB are below the canonical list length. -/
theorem c1permB_bound : c1permB.all (fun i => decide (i < 561)) = true := by
  decide

/-- All indices in c1permA are below the emitted key list length. -/
theorem c1permA_bound : c1permA.all (fun i => decide (i < 567)) = true := by
  decide

/-- Claim C1 (amended): for every extractor input, the combined feature object
of extractFeatures and extractAngleFeatures binds exactly the keys of the
canonical 561-entry feature list - no key is missing and none is extra.  (The
finiteness half of the original claim fails; see the counterexample theorem.) -/
theorem extractFeatures_keys_canonical (ps : ProcessedSignals) :
    (∀ k, k ∈ keysOf ps ↔ k ∈ feature_list)
      ∧ feature_list.length = 561 := by
  refine ⟨fun k => ?_, feature_list_length⟩
  rw [keysOf_eq_genKeys]
  constructor
  · intro hk
    rw [genKeys_eq_permB] at hk
    obtain ⟨i, hi, hk⟩ := List.mem_map.mp hk
    have hlt : i < feature_list.length := by
      rw [feature_list_length]
      exact of_decide_eq_true (List.all_eq_true.mp c1permB_bound i hi)
    exact hk ▸ getD_mem_of_lt feature_list i "" hlt
  · intro hk
    rw [feature_list_eq_permA] at hk
    obtain ⟨i, hi, hk⟩ := List.mem_map.mp hk
    have hlt : i < genKeys.length := by
      rw [genKeys_length]
      exact of_decide_eq_true (List.all_eq_true.mp c1permA_bound i hi)
    exact hk ▸ getD_mem_of_lt genKeys i "" hlt
